import Mathlib

/-!
Verification of the Natural-Language Intent Interpreter and Booking
Modification/Monitoring Engine of the personal-finance-agent travel backend.

The Lean definitions below are a shallow embedding of the Python sources:
  - backend/app/services/trip_parser.py   (rule-based trip-request parser)
  - backend/app/services/modification.py  (modification classifier + executor)
  - backend/app/services/monitor.py       (mock flight-change / price-drop detection)
  - backend/app/tasks/monitor_tasks.py    (scanner + alert deduplication)

Python `datetime.date` / `datetime.datetime` values are embedded as explicit
year/month/day (hour/minute/second) records over `Nat`, with the proleptic
Gregorian ordinal (`date.toordinal`) used for arithmetic and comparison,
exactly as CPython implements them.  Functions that can raise in Python
return `Option`/`none` for the raising paths.
-/

namespace PFA

/-! ### Dates (CPython `datetime.date`) -/

structure Date where
  year : Nat
  month : Nat
  day : Nat
deriving DecidableEq, Repr

def isLeap (y : Nat) : Bool :=
  (y % 4 == 0 && y % 100 != 0) || y % 400 == 0

/-- Month-length table, indexed by the leap flag. -/
def dimT (l : Bool) (m : Nat) : Nat :=
  match m with
  | 1 => 31
  | 2 => if l then 29 else 28
  | 3 => 31
  | 4 => 30
  | 5 => 31
  | 6 => 30
  | 7 => 31
  | 8 => 31
  | 9 => 30
  | 10 => 31
  | 11 => 30
  | 12 => 31
  | _ => 0

/-- Cumulative days before a month (0 for January), indexed by the leap flag. -/
def dbmT (l : Bool) (m : Nat) : Nat :=
  let e : Nat := if l then 1 else 0
  match m with
  | 1 => 0
  | 2 => 31
  | 3 => 59 + e
  | 4 => 90 + e
  | 5 => 120 + e
  | 6 => 151 + e
  | 7 => 181 + e
  | 8 => 212 + e
  | 9 => 243 + e
  | 10 => 273 + e
  | 11 => 304 + e
  | 12 => 334 + e
  | _ => 0

def daysInMonth (y m : Nat) : Nat := dimT (isLeap y) m

def daysBeforeMonth (y m : Nat) : Nat := dbmT (isLeap y) m

def daysBeforeYear (y : Nat) : Nat :=
  365 * (y - 1) + (y - 1) / 4 - (y - 1) / 100 + (y - 1) / 400

def daysInYear (y : Nat) : Nat := if isLeap y then 366 else 365

/-- `date.toordinal()`: day count with 0001-01-01 = 1. -/
def toOrd (d : Date) : Nat :=
  daysBeforeYear d.year + daysBeforeMonth d.year d.month + d.day

/-- Structural well-formedness of a date record (Python additionally caps the
year at 9999; that cap is checked where `date()` is constructed). -/
def Date.valid (d : Date) : Prop :=
  1 ≤ d.year ∧ 1 ≤ d.month ∧ d.month ≤ 12 ∧ 1 ≤ d.day ∧ d.day ≤ daysInMonth d.year d.month

instance (d : Date) : Decidable d.valid := by
  unfold Date.valid; infer_instance

/-- `date.max.toordinal()` = ordinal of 9999-12-31. -/
def maxOrd : Nat := 3652059

/-- `date.weekday()`: Monday = 0 … Friday = 4. -/
def weekday (d : Date) : Nat := (toOrd d + 6) % 7

/-- `d + timedelta(days=1)` without leaving the month/year bookkeeping to
ordinals: mirrors incrementing a `date` by one day. -/
def nextDay (d : Date) : Date :=
  if d.day < daysInMonth d.year d.month then ⟨d.year, d.month, d.day + 1⟩
  else if d.month < 12 then ⟨d.year, d.month + 1, 1⟩
  else ⟨d.year + 1, 1, 1⟩

/-- Month part of `date.fromordinal`: `n` is the 1-based day of year `y`;
walk the months (fuel 11 suffices). -/
def ofOrdMonth (y : Nat) : Nat → Nat → Nat → Date
  | m, n, 0 => ⟨y, m, n⟩
  | m, n, fuel + 1 =>
    if n ≤ daysInMonth y m then ⟨y, m, n⟩
    else ofOrdMonth y (m + 1) (n - daysInMonth y m) fuel

/-- Year part of `date.fromordinal`: subtract whole years. -/
def ofOrdYear : Nat → Nat → Nat → Date
  | y, n, 0 => ofOrdMonth y 1 n 11
  | y, n, fuel + 1 =>
    if n ≤ daysInYear y then ofOrdMonth y 1 n 11
    else ofOrdYear (y + 1) (n - daysInYear y) fuel

/-- `date.fromordinal(n)` for `1 ≤ n`: jump whole 400-year cycles
(146097 days each), then walk the remaining years. -/
def ofOrd (n : Nat) : Date :=
  let k := (n - 1) / 146097
  ofOrdYear (400 * k + 1) (n - 146097 * k) 400

/-- `d + timedelta(days=n)`; `none` models Python's `OverflowError` when the
result would leave `date.min .. date.max`. -/
def pyDateAdd (d : Date) (n : Nat) : Option Date :=
  if toOrd d + n ≤ maxOrd then some (ofOrd (toOrd d + n)) else none

/-- `d - timedelta(days=n)`; `none` models Python's `OverflowError`. -/
def pyDateSub (d : Date) (n : Nat) : Option Date :=
  if n < toOrd d then some (ofOrd (toOrd d - n)) else none

/-- `date(y, m, d)` constructor: `ValueError` (= `none`) outside
`MINYEAR..MAXYEAR` or for an invalid month/day. -/
def mkDate (y m d : Nat) : Option Date :=
  if 1 ≤ y ∧ y ≤ 9999 ∧ 1 ≤ m ∧ m ≤ 12 ∧ 1 ≤ d ∧ d ≤ daysInMonth y m
  then some ⟨y, m, d⟩ else none

/-! ### Calendar lemmas -/

lemma dbmT_succ : ∀ (l : Bool), ∀ m, m < 12 → 1 ≤ m →
    dbmT l (m + 1) = dbmT l m + dimT l m := by decide

lemma dimT_ge : ∀ (l : Bool), ∀ m, m < 13 → 1 ≤ m → 28 ≤ dimT l m := by decide

lemma dbmT_dimT_le : ∀ (l : Bool), ∀ m, m < 13 → 1 ≤ m →
    dbmT l m + dimT l m ≤ 365 + (if l then 1 else 0) := by decide

lemma dbmT_one : ∀ (l : Bool), dbmT l 1 = 0 := by decide

lemma dbmT_twelve : ∀ (l : Bool), dbmT l 12 = 334 + (if l then 1 else 0) := by decide

lemma dimT_twelve : ∀ (l : Bool), dimT l 12 = 31 := by decide

lemma daysInYear_eq (y : Nat) :
    daysInYear y = 365 + (if isLeap y then 1 else 0) := by
  unfold daysInYear; split <;> simp_all

lemma daysInMonth_ge (y m : Nat) (h1 : 1 ≤ m) (h2 : m ≤ 12) :
    28 ≤ daysInMonth y m :=
  dimT_ge (isLeap y) m (by omega) h1

lemma isLeap_iff (y : Nat) :
    isLeap y = true ↔ ((y % 4 = 0 ∧ ¬ y % 100 = 0) ∨ y % 400 = 0) := by
  simp [isLeap, Bool.or_eq_true, Bool.and_eq_true, beq_iff_eq, bne_iff_ne]

set_option maxHeartbeats 1600000 in
lemma daysBeforeYear_succ (y : Nat) (hy : 1 ≤ y) :
    daysBeforeYear (y + 1) = daysBeforeYear y + daysInYear y := by
  have h := isLeap_iff y
  unfold daysBeforeYear daysInYear
  rcases Bool.eq_false_or_eq_true (isLeap y) with hb | hb
  swap
  · rw [hb, if_neg Bool.false_ne_true]
    have hnP : ¬((y % 4 = 0 ∧ ¬ y % 100 = 0) ∨ y % 400 = 0) := by
      rw [← h, hb]; exact Bool.false_ne_true
    push_neg at hnP
    obtain ⟨himp, h400⟩ := hnP
    by_cases h4 : y % 4 = 0
    · have h100 := himp h4
      omega
    · omega
  · rw [hb, if_pos rfl]
    rcases h.mp hb with ⟨h4, h100⟩ | h400
    · omega
    · omega

lemma toOrd_nextDay (d : Date) (h : d.valid) : toOrd (nextDay d) = toOrd d + 1 := by
  obtain ⟨hy, hm1, hm2, hd1, hd2⟩ := h
  unfold nextDay
  split <;> rename_i hlt
  · unfold toOrd; dsimp only; omega
  · split <;> rename_i hm
    · have hkey : daysBeforeMonth d.year (d.month + 1)
          = daysBeforeMonth d.year d.month + daysInMonth d.year d.month :=
        dbmT_succ (isLeap d.year) d.month (by omega) hm1
      unfold toOrd; dsimp only
      omega
    · have hm12 : d.month = 12 := by omega
      have h31 : daysInMonth d.year d.month = 31 := by
        rw [hm12]; exact dimT_twelve (isLeap d.year)
      have hsy := daysBeforeYear_succ d.year hy
      have hdbm12 : daysBeforeMonth d.year d.month
          = 334 + (if isLeap d.year then 1 else 0) := by
        rw [hm12]; exact dbmT_twelve (isLeap d.year)
      have hdbm1 : daysBeforeMonth (d.year + 1) 1 = 0 := dbmT_one (isLeap (d.year + 1))
      have hdiy := daysInYear_eq d.year
      unfold toOrd; dsimp only
      omega

lemma nextDay_valid (d : Date) (h : d.valid) : (nextDay d).valid := by
  obtain ⟨hy, hm1, hm2, hd1, hd2⟩ := h
  unfold nextDay
  split <;> rename_i hlt
  · refine ⟨?_, ?_, ?_, ?_, ?_⟩ <;> dsimp only <;> omega
  · split <;> rename_i hm
    · have := daysInMonth_ge d.year (d.month + 1) (by omega) (by omega)
      refine ⟨?_, ?_, ?_, ?_, ?_⟩ <;> dsimp only <;> omega
    · have := daysInMonth_ge (d.year + 1) 1 (by omega) (by omega)
      refine ⟨?_, ?_, ?_, ?_, ?_⟩ <;> dsimp only <;> omega

lemma ofOrdMonth_go : ∀ (fuel y m n : Nat), 1 ≤ y → 1 ≤ m → 1 ≤ n →
    m + fuel = 12 → n + daysBeforeMonth y m ≤ daysInYear y →
    toOrd (ofOrdMonth y m n fuel) = daysBeforeYear y + daysBeforeMonth y m + n ∧
      (ofOrdMonth y m n fuel).valid ∧ (ofOrdMonth y m n fuel).year = y := by
  intro fuel
  induction fuel with
  | zero =>
    intro y m n hy hm hn hfuel hinv
    have hm12 : m = 12 := by omega
    have hdbm12 : daysBeforeMonth y 12 = 334 + (if isLeap y then 1 else 0) :=
      dbmT_twelve (isLeap y)
    have hdim12 : daysInMonth y 12 = 31 := dimT_twelve (isLeap y)
    have hdiy := daysInYear_eq y
    subst hm12
    refine ⟨rfl, ⟨hy, ?_, ?_, hn, ?_⟩, rfl⟩
    · show (1 : Nat) ≤ 12
      decide
    · show (12 : Nat) ≤ 12
      decide
    · show n ≤ daysInMonth y 12
      omega
  | succ fuel ih =>
    intro y m n hy hm hn hfuel hinv
    simp only [ofOrdMonth]
    split <;> rename_i hcase
    · exact ⟨rfl, ⟨hy, hm, by dsimp only; omega, hn, hcase⟩, rfl⟩
    · have hkey : daysBeforeMonth y (m + 1)
          = daysBeforeMonth y m + daysInMonth y m :=
        dbmT_succ (isLeap y) m (by omega) hm
      have h := ih y (m + 1) (n - daysInMonth y m) hy (by omega) (by omega)
        (by omega) (by omega)
      exact ⟨by rw [h.1]; omega, h.2.1, h.2.2⟩

lemma ofOrdMonth_spec (y n : Nat) (hy : 1 ≤ y) (hn : 1 ≤ n)
    (hb : n ≤ daysInYear y) :
    toOrd (ofOrdMonth y 1 n 11) = daysBeforeYear y + n ∧
      (ofOrdMonth y 1 n 11).valid ∧ (ofOrdMonth y 1 n 11).year = y := by
  have h1 : daysBeforeMonth y 1 = 0 := dbmT_one (isLeap y)
  have h := ofOrdMonth_go 11 y 1 n hy (by omega) hn (by omega) (by omega)
  exact ⟨by rw [h.1]; omega, h.2.1, h.2.2⟩

lemma ofOrdYear_spec : ∀ (fuel y n : Nat), 1 ≤ y → 1 ≤ n → n ≤ 365 * fuel + 365 →
    toOrd (ofOrdYear y n fuel) = daysBeforeYear y + n ∧
      (ofOrdYear y n fuel).valid ∧ y ≤ (ofOrdYear y n fuel).year := by
  intro fuel
  induction fuel with
  | zero =>
    intro y n hy hn hb
    have hle : n ≤ daysInYear y := by unfold daysInYear; split <;> omega
    obtain ⟨ha, hv, hyr⟩ := ofOrdMonth_spec y n hy hn hle
    exact ⟨ha, hv, by simp only [ofOrdYear]; omega⟩
  | succ fuel ih =>
    intro y n hy hn hb
    simp only [ofOrdYear]
    split <;> rename_i hcase
    · obtain ⟨ha, hv, hyr⟩ := ofOrdMonth_spec y n hy hn hcase
      exact ⟨ha, hv, by omega⟩
    · have h365 : 365 ≤ daysInYear y := by unfold daysInYear; split <;> omega
      obtain ⟨ha, hv, hyr⟩ := ih (y + 1) (n - daysInYear y) (by omega) (by omega) (by omega)
      have hsy := daysBeforeYear_succ y hy
      exact ⟨by rw [ha]; omega, hv, by omega⟩

lemma toOrd_ofOrd (n : Nat) (hn : 1 ≤ n) :
    toOrd (ofOrd n) = n ∧ (ofOrd n).valid := by
  have hk : 146097 * ((n - 1) / 146097) ≤ n - 1 := by omega
  obtain ⟨ha, hv, _⟩ := ofOrdYear_spec 400 (400 * ((n - 1) / 146097) + 1)
    (n - 146097 * ((n - 1) / 146097)) (by omega) (by omega) (by omega)
  have hbase : daysBeforeYear (400 * ((n - 1) / 146097) + 1)
      = 146097 * ((n - 1) / 146097) := by
    unfold daysBeforeYear
    omega
  refine ⟨?_, hv⟩
  show toOrd (ofOrdYear (400 * ((n - 1) / 146097) + 1)
    (n - 146097 * ((n - 1) / 146097)) 400) = n
  omega

lemma daysBeforeYear_big (y : Nat) (h : 10000 ≤ y) : 3652059 ≤ daysBeforeYear y := by
  unfold daysBeforeYear
  omega

lemma ofOrd_year_le (n : Nat) (h1 : 1 ≤ n) (h2 : n ≤ maxOrd) :
    (ofOrd n).year ≤ 9999 := by
  by_contra hgt
  have hcorr := toOrd_ofOrd n h1
  have hbig := daysBeforeYear_big (ofOrd n).year (by omega)
  have hday : 1 ≤ (ofOrd n).day := hcorr.2.2.2.2.1
  have : 3652060 ≤ toOrd (ofOrd n) := by
    unfold toOrd; omega
  unfold maxOrd at h2
  omega

lemma toOrd_le_maxOrd (d : Date) (h : d.valid) (hy : d.year ≤ 9999) :
    toOrd d ≤ maxOrd := by
  obtain ⟨hy1, hm1, hm2, hd1, hd2⟩ := h
  have hin : daysBeforeMonth d.year d.month + d.day ≤ daysInYear d.year := by
    have := dbmT_dimT_le (isLeap d.year) d.month (by omega) hm1
    have := daysInYear_eq d.year
    unfold daysBeforeMonth
    unfold daysInMonth at hd2
    omega
  have hsy := daysBeforeYear_succ d.year hy1
  have hmono : daysBeforeYear (d.year + 1) ≤ daysBeforeYear 10000 := by
    unfold daysBeforeYear; omega
  have h10000 : daysBeforeYear 10000 = 3652059 := by norm_num [daysBeforeYear]
  unfold toOrd maxOrd
  omega

lemma toOrd_pos (d : Date) (h : d.valid) : 1 ≤ toOrd d := by
  obtain ⟨_, _, _, hd1, _⟩ := h
  unfold toOrd
  omega

/-! ### First Friday of a month (`_first_friday_of_month`) -/

/-- The `while d.weekday() != 4: d += timedelta(days=1)` loop; seven steps
always suffice to hit a Friday. -/
def firstFridayLoop : Nat → Date → Date
  | 0, d => d
  | fuel + 1, d => if weekday d = 4 then d else firstFridayLoop fuel (nextDay d)

def firstFridayOfMonth (y m : Nat) : Date := firstFridayLoop 7 ⟨y, m, 1⟩

lemma firstFridayLoop_spec : ∀ (fuel : Nat) (d : Date), d.valid →
    d.day + fuel ≤ 8 →
    (∃ j, j < fuel ∧ (toOrd d + 6 + j) % 7 = 4) →
    (firstFridayLoop fuel d).year = d.year ∧
      (firstFridayLoop fuel d).month = d.month ∧
      d.day ≤ (firstFridayLoop fuel d).day ∧
      (firstFridayLoop fuel d).day < d.day + fuel ∧
      weekday (firstFridayLoop fuel d) = 4 := by
  intro fuel
  induction fuel with
  | zero => intro d _ _ hex; omega
  | succ fuel ih =>
    intro d hv hday hex
    simp only [firstFridayLoop]
    split <;> rename_i hw
    · exact ⟨rfl, rfl, le_refl _, by omega, hw⟩
    · have hdim : 28 ≤ daysInMonth d.year d.month := daysInMonth_ge _ _ hv.2.1 hv.2.2.1
      have hnd : nextDay d = ⟨d.year, d.month, d.day + 1⟩ := by
        unfold nextDay
        rw [if_pos (by omega)]
      have hord := toOrd_nextDay d hv
      have hvn := nextDay_valid d hv
      have hex' : ∃ j, j < fuel ∧ (toOrd (nextDay d) + 6 + j) % 7 = 4 := by
        obtain ⟨j, hj, hjm⟩ := hex
        have hj0 : j ≠ 0 := by
          intro h0
          apply hw
          unfold weekday
          omega
        exact ⟨j - 1, by omega, by rw [hord]; omega⟩
      obtain ⟨ha, hb, hc, hd, he⟩ :=
        ih (nextDay d) hvn (by rw [hnd]; dsimp only; omega) hex'
      have hy' : (nextDay d).year = d.year := by rw [hnd]
      have hm' : (nextDay d).month = d.month := by rw [hnd]
      have hd' : (nextDay d).day = d.day + 1 := by rw [hnd]
      exact ⟨ha.trans hy', hb.trans hm', by omega, by omega, he⟩

lemma firstFridayOfMonth_spec (y m : Nat) (hy : 1 ≤ y) (hm1 : 1 ≤ m) (hm2 : m ≤ 12) :
    (firstFridayOfMonth y m).year = y ∧ (firstFridayOfMonth y m).month = m ∧
      1 ≤ (firstFridayOfMonth y m).day ∧ (firstFridayOfMonth y m).day ≤ 7 ∧
      weekday (firstFridayOfMonth y m) = 4 ∧ (firstFridayOfMonth y m).valid := by
  have hdim : 28 ≤ daysInMonth y m := daysInMonth_ge y m hm1 hm2
  have hv : (⟨y, m, 1⟩ : Date).valid := ⟨hy, hm1, hm2, le_refl _, by dsimp only; omega⟩
  have hex : ∃ j, j < 7 ∧ (toOrd ⟨y, m, 1⟩ + 6 + j) % 7 = 4 := by
    refine ⟨(4 + 7 - (toOrd ⟨y, m, 1⟩ + 6) % 7) % 7, ?_, ?_⟩ <;> omega
  obtain ⟨ha, hb, hc, hd, he⟩ :=
    firstFridayLoop_spec 7 ⟨y, m, 1⟩ hv (by dsimp only; omega) hex
  dsimp only at ha hb hc hd
  unfold firstFridayOfMonth
  have hdimr : daysInMonth (firstFridayLoop 7 ⟨y, m, 1⟩).year
      (firstFridayLoop 7 ⟨y, m, 1⟩).month = daysInMonth y m := by
    rw [ha, hb]
  exact ⟨ha, hb, by omega, by omega, he,
    by omega, by omega, by omega, by omega, by omega⟩

/-! ### String helpers (ASCII fragment of the Python `str` methods used) -/

def isSpaceChar (c : Char) : Bool :=
  c = ' ' || c = '\t' || c = '\n' || c = '\r' || c = '\x0b' || c = '\x0c'

def isWordChar (c : Char) : Bool := c.isAlphanum || c = '_'

def pyLower (s : List Char) : List Char := s.map Char.toLower

def pyStrip (s : List Char) : List Char :=
  ((s.dropWhile isSpaceChar).reverse.dropWhile isSpaceChar).reverse

def startsWithL : List Char → List Char → Bool
  | [], _ => true
  | _ :: _, [] => false
  | p :: ps, c :: cs => p = c && startsWithL ps cs

/-- Python's `pat in text` substring test. -/
def containsL (pat : List Char) : List Char → Bool
  | [] => startsWithL pat []
  | c :: rest => startsWithL pat (c :: rest) || containsL pat rest

/-! ### A small backtracking regex engine

A matcher takes the input suffix at the current position and returns the
possible remainders after a match, ordered exactly as CPython `re`
backtracking explores them (alternatives in pattern order, greedy
quantifiers longest-first, lazy quantifiers shortest-first).  `re.search`
is leftmost scanning: try every start position from the left. -/

def M := List Char → List (List Char)

def mlit (p : String) : M := fun s =>
  if startsWithL p.data s then [s.drop p.length] else []

def mseq (a b : M) : M := fun s => (a s).flatMap b

def malt (ms : List M) : M := fun s => ms.flatMap (fun m => m s)

/-- Greedy `(?:x)?`: try matching first, then skipping. -/
def mopt (a : M) : M := fun s => a s ++ [s]

/-- Greedy `C+` for a character class: longest run first. -/
def mplusG (p : Char → Bool) : M := fun s =>
  let run := (s.takeWhile p).length
  (List.range run).map (fun k => s.drop (run - k))

/-- Greedy `C*`: longest run first, down to the empty match. -/
def mstarG (p : Char → Bool) : M := fun s =>
  let run := (s.takeWhile p).length
  (List.range (run + 1)).map (fun k => s.drop (run - k))

/-- Lazy `C+?`: shortest nonempty run first. -/
def mplusL (p : Char → Bool) : M := fun s =>
  let run := (s.takeWhile p).length
  (List.range run).map (fun k => s.drop (k + 1))

/-- Capture candidates for a greedy `(C+)`: (captured, rest), longest first. -/
def capPlusG (p : Char → Bool) (s : List Char) : List (List Char × List Char) :=
  let run := (s.takeWhile p).length
  (List.range run).map (fun k => (s.take (run - k), s.drop (run - k)))

/-- Capture candidates for a lazy `(C+?)`: shortest first. -/
def capPlusL (p : Char → Bool) (s : List Char) : List (List Char × List Char) :=
  let run := (s.takeWhile p).length
  (List.range run).map (fun k => (s.take (k + 1), s.drop (k + 1)))

/-- `re.search` driver: try each start position left to right. -/
def searchTails (f : List Char → Option α) : List Char → Option α
  | [] => f []
  | c :: rest =>
    match f (c :: rest) with
    | some a => some a
    | none => searchTails f rest

/-- `re.search` driver that also tracks the character before the current
position (for `\b`); `none` means start of string. -/
def searchTailsB (f : Option Char → List Char → Option α) :
    Option Char → List Char → Option α
  | prev, [] => f prev []
  | prev, c :: rest =>
    match f prev (c :: rest) with
    | some a => some a
    | none => searchTailsB f (some c) rest

/-! ### Modification classifier (`_parse_modification_request`) -/

def sp1 : M := mplusG isSpaceChar

/-- `(?:my\s+)?(?:hotel(?:\s+stay)?\s+)?(?:by\s+)?` -/
def modMid : M :=
  mseq (mopt (mseq (mlit "my") sp1))
    (mseq (mopt (mseq (mlit "hotel") (mseq (mopt (mseq sp1 (mlit "stay"))) sp1)))
      (mopt (mseq (mlit "by") sp1)))

/-- Capture candidates for `(\w+|\d+)`. -/
def capWordOrDigits (s : List Char) : List (List Char × List Char) :=
  capPlusG isWordChar s ++ capPlusG Char.isDigit s

/-- `\s+(?:more\s+)?night` -/
def nightTail : M :=
  mseq sp1 (mseq (mopt (mseq (mlit "more") sp1)) (mlit "night"))

/-- Match the hotel-nights pattern at one position, returning group 1. -/
def nightsMatchAt (verbs : List String) (s : List Char) : Option (List Char) :=
  ((mseq (malt (verbs.map mlit)) (mseq sp1 modMid)) s).findSome? fun s1 =>
    (capWordOrDigits s1).findSome? fun cs =>
      if (nightTail cs.2).isEmpty then none else some cs.1

/-- `re.search` for the hotel-extension pattern; returns group 1. -/
def extendSearch (r : List Char) : Option (List Char) :=
  searchTails (nightsMatchAt ["extend", "add", "extra", "more"]) r

/-- `re.search` for the hotel-shortening pattern; returns group 1. -/
def shortenSearch (r : List Char) : Option (List Char) :=
  searchTails (nightsMatchAt ["shorten", "reduce", "cut", "fewer"]) r

/-- Does `m` match anywhere in `r`? (`re.search` with a non-`None` result.) -/
def mfound (m : M) (r : List Char) : Bool :=
  (searchTails (fun s => if (m s).isEmpty then none else some ()) r).isSome

/-- `(business\s+class|first\s+class|premium\s+economy)` -/
def seatPat : M :=
  malt [mseq (mlit "business") (mseq sp1 (mlit "class")),
        mseq (mlit "first") (mseq sp1 (mlit "class")),
        mseq (mlit "premium") (mseq sp1 (mlit "economy"))]

/-- `(suite|upgrade\s+(?:my\s+)?(?:hotel\s+)?room|better\s+room|king\s+room)` -/
def roomPat : M :=
  malt [mlit "suite",
        mseq (mlit "upgrade")
          (mseq sp1 (mseq (mopt (mseq (mlit "my") sp1))
            (mseq (mopt (mseq (mlit "hotel") sp1)) (mlit "room")))),
        mseq (mlit "better") (mseq sp1 (mlit "room")),
        mseq (mlit "king") (mseq sp1 (mlit "room"))]

/-- Is the token acceptable to Python `int()` (digits with single interior
underscores, as a `\w+` capture can contain)?  Rest of the token after the
leading digit. -/
def intTokenRest : List Char → Bool
  | [] => true
  | c :: rest =>
    if c.isDigit then intTokenRest rest
    else if c = '_' then
      (match rest with | d :: _ => d.isDigit | [] => false) && intTokenRest rest
    else false

def intTokenOk : List Char → Bool
  | [] => false
  | c :: rest => c.isDigit && intTokenRest rest

def digitsVal (s : List Char) : Nat :=
  s.foldl (fun acc c => 10 * acc + (c.toNat - 48)) 0

/-- `_WORD_MAP` from `modification.py`. -/
def wordMap : List (List Char × Nat) :=
  [("one".data, 1), ("two".data, 2), ("three".data, 3), ("four".data, 4),
   ("five".data, 5), ("six".data, 6), ("seven".data, 7), ("eight".data, 8),
   ("nine".data, 9), ("ten".data, 10), ("a".data, 1), ("an".data, 1)]

/-- `_word_to_int`: try `int(s)`, else the word map (`None` = unresolvable). -/
def wordToInt (s : List Char) : Option Nat :=
  if intTokenOk s then some (digitsVal (s.filter Char.isDigit))
  else (wordMap.find? (fun p => p.1 = pyLower s)).map (·.2)

/-- Python's `nights or 1`: `None` and `0` are falsy. -/
def orOne : Option Nat → Nat
  | none => 1
  | some 0 => 1
  | some (n + 1) => n + 1

inductive ParsedMod
  | hotelExtend (nights : Nat)
  | hotelShorten (nights : Nat)
  | seatUpgrade (cabin : String)
  | roomUpgrade (roomType : String)
  | unknown
deriving DecidableEq, Repr

/-- `_parse_modification_request`. -/
def parseModificationRequest (request : List Char) : ParsedMod :=
  let r := pyStrip (pyLower request)
  match extendSearch r with
  | some w => .hotelExtend (orOne (wordToInt w))
  | none =>
  match shortenSearch r with
  | some w => .hotelShorten (orOne (wordToInt w))
  | none =>
  if mfound seatPat r then
    .seatUpgrade (if containsL "business".data r then "BUSINESS"
      else if containsL "first".data r then "FIRST" else "PREMIUM_ECONOMY")
  else if mfound roomPat r then
    .roomUpgrade (if containsL "suite".data r then "suite"
      else if containsL "king".data r then "king" else "deluxe")
  else .unknown

/-! ### JSON values and Python-dict operations for booking `details` -/

/-- Rational constants and arithmetic on the reduced-fraction
representation (Batteries marks `Rat.mul`/`Rat.add` `@[irreducible]`, so
the raw-field forms keep every concrete evaluation kernel-reducible). -/
def natQ (n : Nat) : ℚ := mkRat n 1

def intQ (i : Int) : ℚ := mkRat i 1

def qMul (a b : ℚ) : ℚ := Rat.divInt (a.num * b.num) ((a.den : Int) * (b.den : Int))

def qAdd (a b : ℚ) : ℚ :=
  Rat.divInt (a.num * (b.den : Int) + b.num * (a.den : Int)) ((a.den : Int) * (b.den : Int))

def qSub (a b : ℚ) : ℚ :=
  Rat.divInt (a.num * (b.den : Int) - b.num * (a.den : Int)) ((a.den : Int) * (b.den : Int))

def qDiv (a b : ℚ) : ℚ := Rat.divInt (a.num * (b.den : Int)) ((a.den : Int) * b.num)

inductive JVal where
  | jstr (s : String)
  | jnum (q : ℚ)
  | jobj (l : List (String × JVal))

def dGet (d : List (String × JVal)) (k : String) : Option JVal :=
  (d.find? (fun p => p.1 = k)).map (·.2)

/-- `{**d, k: v}`: replace in place if the key exists, else append. -/
def dSet (d : List (String × JVal)) (k : String) (v : JVal) : List (String × JVal) :=
  if (d.find? (fun p => p.1 = k)).isSome
  then d.map (fun p => if p.1 = k then (k, v) else p)
  else d ++ [(k, v)]

/-- `d.get(k, {})` where the caller then calls `.get` on the result: a present
non-object value raises `AttributeError` in Python (`none` here). -/
def dGetObjD (d : List (String × JVal)) (k : String) :
    Option (List (String × JVal)) :=
  match dGet d k with
  | none => some []
  | some (.jobj l) => some l
  | some _ => none

/-- `d.get(k, dflt)` where the caller then treats the value as a `str`
(e.g. feeds it to `date.fromisoformat`): a present non-string raises
`TypeError` in Python (`none` here). -/
def dGetStrD (d : List (String × JVal)) (k : String) (dflt : String) :
    Option String :=
  match dGet d k with
  | none => some dflt
  | some (.jstr s) => some s
  | some _ => none

/-- `d.get(k, 0)` where the caller then does arithmetic on the value: a
present non-number raises `TypeError` in Python (`none` here). -/
def dGetNumD (d : List (String × JVal)) (k : String) : Option ℚ :=
  match dGet d k with
  | none => some (natQ 0)
  | some (.jnum q) => some q
  | some _ => none

/-! ### Number/string formatting used in the modification messages -/

def pad2 (n : Nat) : String := if n < 10 then "0" ++ toString n else toString n

def pad4 (n : Nat) : String :=
  if n < 10 then "000" ++ toString n
  else if n < 100 then "00" ++ toString n
  else if n < 1000 then "0" ++ toString n
  else toString n

/-- `date.isoformat()`. -/
def isoDate (d : Date) : String :=
  pad4 d.year ++ "-" ++ pad2 d.month ++ "-" ++ pad2 d.day

/-- Insert thousands separators into a reversed digit list. -/
def commaRev : List Char → List Char
  | a :: b :: c :: d :: rest => a :: b :: c :: ',' :: commaRev (d :: rest)
  | l => l

def natComma (n : Nat) : String :=
  String.mk ((commaRev (toString n).data.reverse).reverse)

/-- `f"{i:,}"` for an `int`. -/
def intComma (i : Int) : String :=
  (if i < 0 then "-" else "") ++ natComma i.natAbs

/-- `⌊q + 1/2⌋` computed on the reduced fraction: round to nearest
(real-number idealization of Python float rounding; the claims never
depend on the rounded digits). -/
def qRoundHalf (q : ℚ) : Int := Int.ediv (2 * q.num + (q.den : Int)) (2 * (q.den : Int))

/-- `f"{x:,.2f}"` (real-number idealization of the float formatting; the
claims never depend on the rendered digits). -/
def money2 (q : ℚ) : String :=
  let c : Int := qRoundHalf (qMul q (natQ 100))
  (if c < 0 then "-" else "") ++ natComma (c.natAbs / 100) ++ "." ++ pad2 (c.natAbs % 100)

/-- Python `repr` of a string, as `{s!r}` renders it (escaping and quote
choice simplified; no claim depends on it). -/
def pyReprStr (s : String) : String := "'" ++ s ++ "'"

def pyReprJ : JVal → String
  | .jstr s => pyReprStr s
  | .jnum q => toString q.num ++ (if q.den = 1 then "" else "/" ++ toString q.den)
  | .jobj _ => "\x7b...\x7d"

/-- `str.title()` over ASCII. -/
def titleGo : Bool → List Char → List Char
  | _, [] => []
  | prev, c :: rest =>
    if c.isAlpha then (if prev then c.toLower else c.toUpper) :: titleGo true rest
    else c :: titleGo false rest

def pyTitle (s : String) : String := String.mk (titleGo false s.data)

/-- `s.replace("_", " ")`. -/
def underscoreToSpace (s : String) : String :=
  String.mk (s.data.map (fun c => if c = '_' then ' ' else c))

/-- `date.fromisoformat` restricted to the dashed `YYYY-MM-DD` shape the
system itself writes (Python 3.11 accepts further ISO shapes; unparseable
input raises `ValueError`, i.e. `none`). -/
def parseISODate (s : String) : Option Date :=
  match s.data with
  | [y1, y2, y3, y4, '-', m1, m2, '-', d1, d2] =>
    if (y1.isDigit && y2.isDigit && y3.isDigit && y4.isDigit
        && m1.isDigit && m2.isDigit && d1.isDigit && d2.isDigit)
    then mkDate (digitsVal [y1, y2, y3, y4]) (digitsVal [m1, m2]) (digitsVal [d1, d2])
    else none
  | _ => none

/-! ### Modification executor (`apply_modification` and handlers)

A booking row carries its `type`, `status` and JSON `details`.  The Python
handlers mutate the selected ORM object's `details` and `db.commit()`; here
the whole booking collection is passed and returned explicitly.  `none`
models an exception escaping `apply_modification`. -/

structure MBooking where
  btype : String
  status : String
  details : List (String × JVal)

structure ModResult where
  success : Bool
  modification_type : String
  message : String
  updated_details : Option (List (String × JVal))

/-- `_err`. -/
def errResult (message : String) : ModResult :=
  ⟨false, "error", message, none⟩

/-- `_find_booking`: first booking of the type with status "confirmed". -/
def findBooking (bookings : List MBooking) (btype : String) : Option MBooking :=
  bookings.find? (fun b => b.btype = btype && b.status = "confirmed")

/-- Replace the details of the first confirmed booking of the given type
(the object `_find_booking` returned). -/
def updateFirst (bookings : List MBooking) (btype : String)
    (newDetails : List (String × JVal)) : List MBooking :=
  match bookings with
  | [] => []
  | b :: rest =>
    if b.btype = btype && b.status = "confirmed"
    then { b with details := newDetails } :: rest
    else b :: updateFirst rest btype newDetails

/-- `_mock_hotel_date_change`. -/
def mockHotelDateChange (hotel : List (String × JVal)) (field : String)
    (newValue : String) : List (String × JVal) :=
  dSet hotel field (.jstr newValue)

/-- `_modify_hotel_extend`. -/
def modifyHotelExtend (mockMode : Bool) (bookings : List MBooking) (nights : Nat) :
    Option (ModResult × List MBooking) :=
  match findBooking bookings "hotel" with
  | none => some (errResult "No confirmed hotel booking found on this trip.", bookings)
  | some hb =>
  match dGetObjD hb.details "hotel" with
  | none => none
  | some hotel =>
  match dGetStrD hotel "check_out" "" with
  | none => none
  | some checkOutStr =>
  match parseISODate checkOutStr with
  | none =>
    some (errResult ("Could not parse hotel check-out date: " ++ pyReprStr checkOutStr),
      bookings)
  | some checkOut =>
  match pyDateAdd checkOut nights with
  | none => none
  | some newCheckOut =>
  if mockMode then
    match dGetNumD hotel "price_per_night_usd" with
    | none => none
    | some ppn =>
      let updated := mockHotelDateChange hotel "check_out" (isoDate newCheckOut)
      let extraCost : ℚ := qDiv (intQ (qRoundHalf (qMul (qMul ppn (natQ nights)) (natQ 100)))) (natQ 100)
      some (⟨true, "hotel_extend",
        "Hotel check-out extended by " ++ toString nights ++ " night(s) to "
          ++ isoDate newCheckOut ++ "."
          ++ (if extraCost ≠ natQ 0 then " Estimated extra cost: $" ++ money2 extraCost ++ "." else ""),
        some updated⟩,
        updateFirst bookings "hotel" (dSet hb.details "hotel" (.jobj updated)))
  else
    some (errResult "Live hotel modification failed. Please contact the hotel directly.",
      bookings)

/-- `_modify_hotel_shorten`. -/
def modifyHotelShorten (mockMode : Bool) (bookings : List MBooking) (nights : Nat) :
    Option (ModResult × List MBooking) :=
  match findBooking bookings "hotel" with
  | none => some (errResult "No confirmed hotel booking found on this trip.", bookings)
  | some hb =>
  match dGetObjD hb.details "hotel" with
  | none => none
  | some hotel =>
  match dGetStrD hotel "check_out" "" with
  | none => none
  | some checkOutStr =>
  match dGetStrD hotel "check_in" "" with
  | none => none
  | some checkInStr =>
  match parseISODate checkOutStr with
  | none => some (errResult "Could not parse hotel dates.", bookings)
  | some checkOut =>
  match parseISODate checkInStr with
  | none => some (errResult "Could not parse hotel dates.", bookings)
  | some checkIn =>
  match pyDateSub checkOut nights with
  | none => none
  | some newCheckOut =>
  if toOrd newCheckOut ≤ toOrd checkIn then
    some (errResult "Cannot shorten the stay — that would result in a zero or negative duration.",
      bookings)
  else if mockMode then
    let updated := mockHotelDateChange hotel "check_out" (isoDate newCheckOut)
    some (⟨true, "hotel_shorten",
      "Hotel check-out moved up by " ++ toString nights ++ " night(s) to "
        ++ isoDate newCheckOut ++ ".",
      some updated⟩,
      updateFirst bookings "hotel" (dSet hb.details "hotel" (.jobj updated)))
  else
    some (errResult "Live hotel modification failed. Please contact the hotel directly.",
      bookings)

/-- `cabin_premiums.get(c, 0)`. -/
def cabinPremium (c : String) : Nat :=
  if c = "PREMIUM_ECONOMY" then 350
  else if c = "BUSINESS" then 1200
  else if c = "FIRST" then 2500
  else 0

/-- `_modify_seat_upgrade`. -/
def modifySeatUpgrade (mockMode : Bool) (bookings : List MBooking) (cabin : String) :
    Option (ModResult × List MBooking) :=
  match findBooking bookings "flight" with
  | none => some (errResult "No confirmed flight booking found on this trip.", bookings)
  | some fb =>
  match dGetObjD fb.details "flight" with
  | none => none
  | some flight =>
  match dGetStrD flight "cabin" "ECONOMY" with
  | none => none
  | some currentCabin =>
  if currentCabin = cabin then
    some (errResult ("Flight is already booked in " ++ cabin ++ "."), bookings)
  else if mockMode then
    let updatedFlight := dSet flight "cabin" (.jstr cabin)
    let upgradeCost : Int := (cabinPremium cabin : Int) - (cabinPremium currentCabin : Int)
    some (⟨true, "seat_upgrade",
      "Cabin upgraded from " ++ pyTitle (underscoreToSpace currentCabin)
        ++ " to " ++ pyTitle (underscoreToSpace cabin)
        ++ ". Estimated upgrade cost: $" ++ intComma upgradeCost ++ ".",
      some updatedFlight⟩,
      updateFirst bookings "flight" (dSet fb.details "flight" (.jobj updatedFlight)))
  else
    some (errResult ("Live seat upgrades require contacting the airline directly. "
      ++ "Please call the carrier to request an upgrade."), bookings)

def roomTypeLabel (rt : String) : String :=
  if rt = "suite" then "Junior Suite"
  else if rt = "king" then "King Room"
  else if rt = "deluxe" then "Deluxe Room"
  else "Upgraded Room"

def roomCost (rt : String) : Nat :=
  if rt = "suite" then 150
  else if rt = "king" then 50
  else if rt = "deluxe" then 80
  else 60

/-- `_modify_room_upgrade`. -/
def modifyRoomUpgrade (mockMode : Bool) (bookings : List MBooking) (roomType : String) :
    Option (ModResult × List MBooking) :=
  match findBooking bookings "hotel" with
  | none => some (errResult "No confirmed hotel booking found on this trip.", bookings)
  | some hb =>
  match dGetObjD hb.details "hotel" with
  | none => none
  | some hotel =>
  let currentRoom : JVal := (dGet hotel "room_type").getD (.jstr "Standard Room")
  if mockMode then
    match dGetStrD hotel "check_out" "" with
    | none => none
    | some coS =>
    match dGetStrD hotel "check_in" "" with
    | none => none
    | some ciS =>
      let newRoom := roomTypeLabel roomType
      let nights : Int :=
        match parseISODate coS, parseISODate ciS with
        | some co, some ci => (toOrd co : Int) - (toOrd ci : Int)
        | _, _ => 1
      let extraTotal : Int := (roomCost roomType : Int) * max nights 1
      let updatedHotel := dSet hotel "room_type" (.jstr newRoom)
      some (⟨true, "room_upgrade",
        "Room upgraded from " ++ pyReprJ currentRoom ++ " to " ++ pyReprStr newRoom
          ++ ". Estimated extra cost: $" ++ money2 (intQ extraTotal) ++ ".",
        some updatedHotel⟩,
        updateFirst bookings "hotel" (dSet hb.details "hotel" (.jobj updatedHotel)))
  else
    some (errResult ("Live room upgrades require contacting the hotel directly. "
      ++ "Please call the property or use their app to request a room change."), bookings)

/-- The guidance message of the unknown-intent branch of `apply_modification`. -/
def unknownMessage : String :=
  "Could not understand that modification request. "
    ++ "Try: 'extend my hotel by 2 nights', 'upgrade to business class', "
    ++ "or 'upgrade to a suite'."

/-- `apply_modification`: classify the request and dispatch.  The unused
`trip` argument of the Python function is dropped; `db.commit()` is the
identity on the explicit booking state. -/
def applyModification (mockMode : Bool) (bookings : List MBooking)
    (request : List Char) : Option (ModResult × List MBooking) :=
  match parseModificationRequest request with
  | .hotelExtend n => modifyHotelExtend mockMode bookings n
  | .hotelShorten n => modifyHotelShorten mockMode bookings n
  | .seatUpgrade cabin => modifySeatUpgrade mockMode bookings cabin
  | .roomUpgrade rt => modifyRoomUpgrade mockMode bookings rt
  | .unknown => some (⟨false, "unknown", unknownMessage, none⟩, bookings)

/-! ### Rule-based trip parser (`_parse_with_rules`)

The Python function returns a dict with ISO-date strings; since
`date.isoformat` is injective the depart/return fields are embedded as
`Date` values directly.  `none` models an exception escaping
`_parse_with_rules` (`int("")`/`date(...)` `ValueError` on pathological
inputs). -/

/-- `_CITY_TO_IATA`, in source (= Python dict insertion) order. -/
def cityTable : List (String × String) :=
  [("new york", "JFK"), ("nyc", "JFK"), ("jfk", "JFK"),
   ("los angeles", "LAX"), ("la", "LAX"), ("lax", "LAX"),
   ("chicago", "ORD"), ("ord", "ORD"),
   ("san francisco", "SFO"), ("sf", "SFO"), ("sfo", "SFO"),
   ("miami", "MIA"), ("mia", "MIA"),
   ("dallas", "DFW"), ("dfw", "DFW"),
   ("seattle", "SEA"), ("sea", "SEA"),
   ("boston", "BOS"), ("bos", "BOS"),
   ("london", "LHR"), ("lhr", "LHR"),
   ("paris", "CDG"), ("cdg", "CDG"),
   ("tokyo", "TYO"), ("tyo", "TYO"),
   ("osaka", "KIX"), ("kix", "KIX"),
   ("rome", "FCO"), ("fco", "FCO"),
   ("barcelona", "BCN"), ("bcn", "BCN"),
   ("madrid", "MAD"), ("mad", "MAD"),
   ("amsterdam", "AMS"), ("ams", "AMS"),
   ("bangkok", "BKK"), ("bkk", "BKK"),
   ("sydney", "SYD"), ("syd", "SYD"),
   ("dubai", "DXB"), ("dxb", "DXB"),
   ("singapore", "SIN"), ("sin", "SIN"),
   ("hong kong", "HKG"), ("hkg", "HKG"),
   ("seoul", "ICN"), ("icn", "ICN"),
   ("mexico city", "MEX"), ("mex", "MEX"),
   ("toronto", "YYZ"), ("yyz", "YYZ"),
   ("vancouver", "YVR"), ("yvr", "YVR"),
   ("cancun", "CUN"), ("cun", "CUN"),
   ("bali", "DPS"), ("dps", "DPS"),
   ("berlin", "BER"), ("ber", "BER"),
   ("munich", "MUC"), ("muc", "MUC"),
   ("zurich", "ZRH"), ("zrh", "ZRH"),
   ("vienna", "VIE"), ("vie", "VIE"),
   ("istanbul", "IST"), ("ist", "IST"),
   ("cairo", "CAI"), ("cai", "CAI"),
   ("cape town", "CPT"), ("cpt", "CPT")]

/-- `_MONTH_NAMES`, in source order. -/
def monthTable : List (String × Nat) :=
  [("january", 1), ("jan", 1),
   ("february", 2), ("feb", 2),
   ("march", 3), ("mar", 3),
   ("april", 4), ("apr", 4),
   ("may", 5),
   ("june", 6), ("jun", 6),
   ("july", 7), ("jul", 7),
   ("august", 8), ("aug", 8),
   ("september", 9), ("sep", 9), ("sept", 9),
   ("october", 10), ("oct", 10),
   ("november", 11), ("nov", 11),
   ("december", 12), ("dec", 12)]

def isAzSpace (c : Char) : Bool := ('a' ≤ c && c ≤ 'z') || c = ' '

def isLowerAz (c : Char) : Bool := 'a' ≤ c && c ≤ 'z'

def isDigitComma (c : Char) : Bool := c.isDigit || c = ','

/-- `\b` to the left of a word character. -/
def wordBoundaryBefore : Option Char → Bool
  | none => true
  | some c => !(isWordChar c)

/-- `\b` to the right of a word character. -/
def wordBoundaryAfter : List Char → Bool
  | [] => true
  | c :: _ => !(isWordChar c)

/-- Single-character class matcher (`[\s]?` body). -/
def mcls (p : Char → Bool) : M := fun s =>
  match s with
  | c :: rest => if p c then [rest] else []
  | [] => []

/-- `$` (also matches before one trailing newline, as in Python without
`re.MULTILINE`). -/
def mEnd : M := fun s => if s = [] || s = ['\n'] then [s] else []

/-- `(?:\s+to|\s+in|\s+for|,|$)` -/
def fromTail : M :=
  malt [mseq sp1 (mlit "to"), mseq sp1 (mlit "in"), mseq sp1 (mlit "for"),
        mlit ",", mEnd]

/-- `\bfrom\s+([a-z ]+?)(?:\s+to|\s+in|\s+for|,|$)` at one position. -/
def fromAt (prev : Option Char) (s : List Char) : Option (List Char) :=
  if wordBoundaryBefore prev then
    ((mseq (mlit "from") sp1) s).findSome? fun s1 =>
      (capPlusL isAzSpace s1).findSome? fun cs =>
        if (fromTail cs.2).isEmpty then none else some cs.1
  else none

def fromSearch (text : List Char) : Option (List Char) :=
  searchTailsB fromAt none text

def monthAbbrevs : List String :=
  ["jan", "feb", "mar", "apr", "may", "jun", "jul", "aug", "sep", "oct", "nov", "dec"]

/-- Capture candidates for greedy `(\d{1,2})`. -/
def cap12digits : List Char → List (List Char × List Char)
  | a :: b :: rest =>
    if a.isDigit && b.isDigit then [([a, b], rest), ([a], b :: rest)]
    else if a.isDigit then [([a], b :: rest)] else []
  | [a] => if a.isDigit then [([a], [])] else []
  | [] => []

/-- `\b(jan|feb|…|dec)[a-z]*\.?\s+(\d{1,2})\b` at one position; returns
(group 1, group 2 as a number). -/
def dateAt (prev : Option Char) (s : List Char) : Option (List Char × Nat) :=
  if wordBoundaryBefore prev then
    monthAbbrevs.findSome? fun mon =>
      ((mseq (mlit mon) (mseq (mstarG isLowerAz) (mseq (mopt (mlit ".")) sp1))) s).findSome?
        fun s1 =>
          (cap12digits s1).findSome? fun cs =>
            if wordBoundaryAfter cs.2 then some (mon.data, digitsVal cs.1) else none
  else none

def dateSearch (text : List Char) : Option (List Char × Nat) :=
  searchTailsB dateAt none text

/-- `(\d+)` followed by a tail pattern, at one position. -/
def capNumAt (tail : M) (s : List Char) : Option Nat :=
  (capPlusG Char.isDigit s).findSome? fun cs =>
    if (tail cs.2).isEmpty then none else some (digitsVal cs.1)

/-- `(\d+)\s+days?` -/
def daysSearch (text : List Char) : Option Nat :=
  searchTails (capNumAt (mseq sp1 (mseq (mlit "day") (mopt (mlit "s"))))) text

/-- `(\d+)\s+weeks?` -/
def weeksSearch (text : List Char) : Option Nat :=
  searchTails (capNumAt (mseq sp1 (mseq (mlit "week") (mopt (mlit "s"))))) text

/-- `\$[\s]?([\d,]+)` -/
def budgetSearch (text : List Char) : Option (List Char) :=
  searchTails (fun s =>
    ((mseq (mlit "$") (mopt (mcls isSpaceChar))) s).findSome? fun s1 =>
      ((capPlusG isDigitComma s1).map (·.1)).head?) text

/-- `under\s+([\d,]+)` -/
def underSearch (text : List Char) : Option (List Char) :=
  searchTails (fun s =>
    ((mseq (mlit "under") sp1) s).findSome? fun s1 =>
      ((capPlusG isDigitComma s1).map (·.1)).head?) text

/-- `int(cap.replace(",", ""))`: `ValueError` (= `none`) when nothing but
commas was captured. -/
def pyIntCommaStr (cap : List Char) : Option Nat :=
  let ds := cap.filter Char.isDigit
  if ds.isEmpty then none else some (digitsVal ds)

/-- `(\d+)\s+(?:people|travelers?|passengers?|adults?)` -/
def travelersSearch (text : List Char) : Option Nat :=
  searchTails (capNumAt (mseq sp1 (malt
    [mlit "people",
     mseq (mlit "traveler") (mopt (mlit "s")),
     mseq (mlit "passenger") (mopt (mlit "s")),
     mseq (mlit "adult") (mopt (mlit "s"))]))) text

/-- `(?:\s*,|\s*\.|\s+and|\s+under|\s+budget|$)` -/
def areaTail : M :=
  malt [mseq (mstarG isSpaceChar) (mlit ","), mseq (mstarG isSpaceChar) (mlit "."),
        mseq sp1 (mlit "and"), mseq sp1 (mlit "under"), mseq sp1 (mlit "budget"), mEnd]

/-- `\bnear\s+([a-z ]+?)(?:…)` at one position. -/
def areaAt (prev : Option Char) (s : List Char) : Option (List Char) :=
  if wordBoundaryBefore prev then
    ((mseq (mlit "near") sp1) s).findSome? fun s1 =>
      (capPlusL isAzSpace s1).findSome? fun cs =>
        if (areaTail cs.2).isEmpty then none else some cs.1
  else none

def areaSearch (text : List Char) : Option (List Char) :=
  searchTailsB areaAt none text

structure RuleSpec where
  origin : Option String
  destination : Option String
  destination_city : Option String
  depart_date : Option Date
  return_date : Option Date
  budget_total : Option Nat
  num_travelers : Nat
  cabin_class : String
  hotel_area : Option String
  notes : Option String
deriving Repr

/-- Month pass: first month-name substring sets the depart date to the
first Friday, rolling the year forward per the source's rule.  Outer
`none` = `ValueError` escaping (`date(year, month, 1)` with year > 9999). -/
def rulesMonthDepart (today : Date) (text : List Char) : Option (Option Date) :=
  match monthTable.find? (fun p => containsL p.1.data text) with
  | none => some none
  | some (_, mnum) =>
    let yr := if mnum < today.month ∨ (mnum = today.month ∧ 15 < today.day)
              then today.year + 1 else today.year
    if 1 ≤ yr ∧ yr ≤ 9999 then some (some (firstFridayOfMonth yr mnum)) else none

/-- Explicit `"<Mon> <day>"` pass, overriding the month pass.  Outer `none`
= `ValueError` escaping (`date()` on an invalid day). -/
def rulesDateOverride (today : Date) (text : List Char) (dflt : Option Date) :
    Option (Option Date) :=
  match dateSearch text with
  | none => some dflt
  | some (monStr, day) =>
    match monthTable.find? (fun p => p.1.data = monStr) with
    | none => some dflt
    | some (_, mnum) =>
      match mkDate today.year mnum day with
      | none => none
      | some cand =>
        if toOrd cand < toOrd today then
          match mkDate (today.year + 1) mnum day with
          | none => none
          | some c2 => some (some c2)
        else some (some cand)

/-- `"<N> days"` / `"<N> weeks"` duration. -/
def rulesDuration (text : List Char) : Option Nat :=
  match daysSearch text with
  | some n => some n
  | none =>
    match weeksSearch text with
    | some n => some (n * 7)
    | none => none

/-- Budget pass; `none` = `ValueError` escaping from `int()`. -/
def rulesBudget (text : List Char) : Option (Option Nat) :=
  match budgetSearch text with
  | some cap =>
    match pyIntCommaStr cap with
    | none => none
    | some b => some (some b)
  | none =>
    match underSearch text with
    | some cap =>
      match pyIntCommaStr cap with
      | none => none
      | some b => some (some b)
    | none => some none

def rulesCabin (text : List Char) : String :=
  if containsL "business class".data text || containsL "business seat".data text
  then "BUSINESS"
  else if containsL "first class".data text then "FIRST"
  else if containsL "premium economy".data text then "PREMIUM_ECONOMY"
  else "ECONOMY"

/-- `_parse_with_rules(raw_request)` with `date.today()` passed explicitly. -/
def parseWithRules (today : Date) (raw : List Char) : Option RuleSpec := do
  let text := pyLower raw
  let destPair := cityTable.find? (fun p => containsL p.1.data text)
  let origin : Option String :=
    match fromSearch text with
    | none => none
    | some cap => (cityTable.find? (fun p => p.1.data = pyStrip cap)).map (·.2)
  let departMonth ← rulesMonthDepart today text
  let depart ← rulesDateOverride today text departMonth
  let durationDays := rulesDuration text
  let ret : Option Date ←
    match depart, durationDays with
    | some dep, some dur =>
      if dur ≠ 0 then
        match pyDateAdd dep dur with
        | none => none
        | some r => some (some r)
      else some none
    | _, _ => some none
  let budget ← rulesBudget text
  let travelers := (travelersSearch text).getD 1
  let area : Option String :=
    (areaSearch text).map (fun cap => pyTitle (String.mk (pyStrip cap)))
  some ⟨origin, destPair.map (·.2), destPair.map (fun p => pyTitle p.1),
    depart, ret, budget, travelers, rulesCabin text, area, none⟩

/-! ### Mersenne Twister (MT19937) as seeded by CPython `random.Random(n)`

`random.Random(n)` for a non-negative int below 2³² runs `init_genrand(19650218)`
followed by `init_by_array([n])`; the state is 624 32-bit words.  The mock
monitoring draws fewer than a dozen words, all inside the first generated
block, so the twist needs no wrap-around case. -/

def u32 (n : Nat) : Nat := n % 4294967296

/-- Generate `count` words from a recurrence on (index, previous word).
The inner match forces each word to a literal before it is passed on, so
that kernel evaluation of a late word needs only constant stack per step. -/
def genList (f : Nat → Nat → Nat) : Nat → Nat → Nat → List Nat
  | 0, _, _ => []
  | c + 1, i, prev =>
    match f i prev with
    | 0 => 0 :: genList f c (i + 1) 0
    | Nat.succ n => (n + 1) :: genList f c (i + 1) (n + 1)

/-- `init_genrand(s)`: the 624-word base state. -/
def initGenrand (s : Nat) : List Nat :=
  u32 s :: genList (fun i prev => u32 (1812433253 * (prev ^^^ (prev >>> 30)) + i)) 623 1 (u32 s)

/-- Map a list with a carried previous value and a running index, forcing
each result to a literal as in `genList`. -/
def scanCarry (f : Nat → Nat → Nat → Nat) : Nat → Nat → List Nat → List Nat
  | _, _, [] => []
  | i, prev, x :: xs =>
    match f i x prev with
    | 0 => 0 :: scanCarry f (i + 1) 0 xs
    | Nat.succ n => (n + 1) :: scanCarry f (i + 1) (n + 1) xs

/-- `init_by_array([seed])` over `init_genrand(19650218)`, unrolled: pass 1
runs 624 iterations (i = 1..623, wrap, then i = 1 again), pass 2 runs 623
(i = 2..623, wrap, then i = 1), then `mt[0] = 0x80000000`. -/
def mtSeedState (seed : Nat) : List Nat :=
  let mt0 := initGenrand 19650218
  let m0 := mt0.headD 0
  let f1 : Nat → Nat → Nat → Nat := fun _ cur prev =>
    u32 ((cur ^^^ u32 ((prev ^^^ (prev >>> 30)) * 1664525)) + seed)
  let l1 := scanCarry f1 1 m0 (mt0.drop 1)
  let m623 := l1.getLastD 0
  let mt1b := u32 (((l1.headD 0) ^^^ u32 ((m623 ^^^ (m623 >>> 30)) * 1664525)) + seed)
  let f2 : Nat → Nat → Nat → Nat := fun i cur prev =>
    u32 ((cur ^^^ u32 ((prev ^^^ (prev >>> 30)) * 1566083941)) + 4294967296 - i)
  let l2 := scanCarry f2 2 mt1b (l1.drop 1)
  let m623b := l2.getLastD 0
  let mt1c := u32 ((mt1b ^^^ u32 ((m623b ^^^ (m623b >>> 30)) * 1566083941)) + 4294967296 - 1)
  2147483648 :: mt1c :: l2

/-- The MT output tempering. -/
def mtTemper (y : Nat) : Nat :=
  let y1 := y ^^^ (y >>> 11)
  let y2 := y1 ^^^ ((y1 <<< 7) &&& 0x9d2c5680)
  let y3 := y2 ^^^ ((y2 <<< 15) &&& 0xefc60000)
  y3 ^^^ (y3 >>> 18)

/-- The `k`-th 32-bit output word (`k < 227`: first block, no wrap). -/
def mtNth (st : List Nat) (k : Nat) : Nat :=
  let yk := (st.getD k 0 &&& 2147483648) ||| (st.getD (k + 1) 0 &&& 2147483647)
  mtTemper ((st.getD (k + 397) 0) ^^^ (yk >>> 1)
    ^^^ (if yk % 2 = 1 then 0x9908b0df else 0))

/-- A `random.Random` instance: the seeded state plus the next word index. -/
structure RS where
  st : List Nat
  idx : Nat

def freshRS (seed : Nat) : RS := ⟨mtSeedState seed, 0⟩

def nextU32 (r : RS) : Nat × RS := (mtNth r.st r.idx, ⟨r.st, r.idx + 1⟩)

/-- `rng.random()` as the exact 53-bit numerator: the result is this over 2⁵³. -/
def pyRandomNum (r : RS) : Nat × RS :=
  let (w0, r1) := nextU32 r
  let (w1, r2) := nextU32 r1
  ((w0 >>> 5) * 67108864 + (w1 >>> 6), r2)

/-- `Random._randbelow(n)` (n with bit length `k`): draw `getrandbits(k)`
until the value is below `n`.  The rejection loop is fuel-bounded; `none`
models non-termination within the fuel (never hit on a concrete seed). -/
def randbelowFuel (n k : Nat) : Nat → RS → Option (Nat × RS)
  | 0, _ => none
  | fuel + 1, r =>
    let (w, r1) := nextU32 r
    let v := w >>> (32 - k)
    if v < n then some (v, r1) else randbelowFuel n k fuel r1

/-! ### Monitor mocks (`_mock_flight_changes`, `_mock_price_drop`)

The booking argument is the `details["flight"]` dict; the fields the mocks
read are embedded as optional fields (`None` = key absent, `.get` default
applies).  A couple of unread fields are kept so that the determinism
statements are not vacuous. -/

structure FlightB where
  carrier : Option String := none
  flight_number : Option String := none
  depart_datetime : Option String := none
  origin : Option String := none
  destination : Option String := none
  cabin : Option String := none
  price_usd : Option ℚ := none

/-- `sum(ord(c) for c in s)`. -/
def ordSum (s : String) : Nat := s.data.foldl (fun a c => a + c.toNat) 0

structure DateTime where
  date : Date
  hour : Nat
  minute : Nat
  second : Nat
deriving DecidableEq, Repr

/-- `HH:MM` or `HH:MM:SS` with range validation. -/
def parseTimeHM : List Char → Option (Nat × Nat × Nat)
  | [h1, h2, ':', m1, m2] =>
    if h1.isDigit && h2.isDigit && m1.isDigit && m2.isDigit then
      let hh := digitsVal [h1, h2]
      let mm := digitsVal [m1, m2]
      if hh ≤ 23 ∧ mm ≤ 59 then some (hh, mm, 0) else none
    else none
  | [h1, h2, ':', m1, m2, ':', s1, s2] =>
    if h1.isDigit && h2.isDigit && m1.isDigit && m2.isDigit && s1.isDigit && s2.isDigit then
      let hh := digitsVal [h1, h2]
      let mm := digitsVal [m1, m2]
      let ss := digitsVal [s1, s2]
      if hh ≤ 23 ∧ mm ≤ 59 ∧ ss ≤ 59 then some (hh, mm, ss) else none
    else none
  | _ => none

/-- `datetime.fromisoformat` restricted to `YYYY-MM-DD[<sep>HH:MM[:SS]]`
(Python 3.11 accepts further ISO shapes; unparseable = `ValueError` = `none`). -/
def dtFromIso (s : String) : Option DateTime :=
  match s.data with
  | [y1, y2, y3, y4, '-', mo1, mo2, '-', d1, d2] =>
    (parseISODate (String.mk [y1, y2, y3, y4, '-', mo1, mo2, '-', d1, d2])).map
      (⟨·, 0, 0, 0⟩)
  | y1 :: y2 :: y3 :: y4 :: '-' :: mo1 :: mo2 :: '-' :: d1 :: d2 :: _sep :: rest =>
    match parseISODate (String.mk [y1, y2, y3, y4, '-', mo1, mo2, '-', d1, d2]) with
    | none => none
    | some d =>
      match parseTimeHM rest with
      | none => none
      | some (h, mi, ss) => some ⟨d, h, mi, ss⟩
  | _ => none

/-- `dt + timedelta(minutes=m)`; `none` models `OverflowError` outside the
`datetime` range. -/
def dtAddMinutes (dt : DateTime) (m : Int) : Option DateTime :=
  let total : Int := ((toOrd dt.date : Int) - 1) * 1440 + dt.hour * 60 + dt.minute + m
  if total < 0 then none
  else
    let t := total.toNat
    let od := t / 1440 + 1
    if od ≤ maxOrd then some ⟨ofOrd od, (t % 1440) / 60, (t % 1440) % 60, dt.second⟩
    else none

/-- `datetime.isoformat()` (no microseconds). -/
def dtIso (dt : DateTime) : String :=
  isoDate dt.date ++ "T" ++ pad2 dt.hour ++ ":" ++ pad2 dt.minute ++ ":" ++ pad2 dt.second

inductive MVal where
  | s (v : String)
  | q (v : ℚ)
deriving DecidableEq

structure Alert where
  alert_type : String
  message : String
  details : List (String × MVal)
deriving DecidableEq

/-- Largest 53-bit numerator `a` with `a/2⁵³ ≤ 0.08` as a binary double
(`0.08` is exactly `5764607523034235/2⁵⁶`): `rng.random() > 0.08` iff the
numerator exceeds this. -/
def act8Num : Nat := 720575940379279

/-- Largest numerator with `a/2⁵³ ≤ 0.12` (`0.12` = `1080863910568919/2⁵³`). -/
def act12Num : Nat := 1080863910568919

def shiftChoices : List Int := [-30, -15, 15, 30, 45, 60, 90]

def gateChoices : List String := ["A12", "B7", "C22", "D4", "E18", "F3"]

/-- The active branch of `_mock_flight_changes` (source lines 72–139),
entered when the seeded activation draw is ≤ 8%. -/
def mockFlightChangesActive (carrier flightNumber oldTime : String) (r1 : RS) :
    Option (List Alert) :=
  match randbelowFuel 3 2 53 r1 with
  | none => none
  | some (ci, r2) =>
  let dt := (dtFromIso oldTime).getD ⟨⟨2026, 6, 1⟩, 8, 0, 0⟩
  match randbelowFuel 7 3 53 r2 with
  | none => none
  | some (si, r3) =>
  let shift := shiftChoices.getD si 0
  match dtAddMinutes dt shift with
  | none => none
  | some newDt =>
  if ci = 0 then
    let direction := if shift < 0 then "earlier" else "later"
    some [⟨"schedule_change",
      carrier ++ " " ++ flightNumber ++ ": departure rescheduled "
        ++ toString shift.natAbs ++ " min " ++ direction
        ++ " (now " ++ pad2 newDt.hour ++ ":" ++ pad2 newDt.minute ++ ")",
      [("field", .s "departure_time"), ("old_value", .s oldTime),
       ("new_value", .s (dtIso newDt)), ("carrier", .s carrier),
       ("flight_number", .s flightNumber)]⟩]
  else if ci = 1 then
    match randbelowFuel 9 4 53 r3 with
    | none => none
    | some (hi, _) =>
    match dtAddMinutes newDt (60 * ((2 : Int) + hi)) with
    | none => none
    | some newArr =>
    some [⟨"schedule_change",
      carrier ++ " " ++ flightNumber ++ ": estimated arrival updated to "
        ++ pad2 newArr.hour ++ ":" ++ pad2 newArr.minute,
      [("field", .s "arrival_time"), ("old_value", .s ""),
       ("new_value", .s (dtIso newArr)), ("carrier", .s carrier),
       ("flight_number", .s flightNumber)]⟩]
  else
    match randbelowFuel 6 3 53 r3 with
    | none => none
    | some (gi, _) =>
    let newGate := gateChoices.getD gi ""
    some [⟨"schedule_change",
      carrier ++ " " ++ flightNumber ++ ": gate changed to " ++ newGate,
      [("field", .s "gate"), ("old_value", .s "TBD"), ("new_value", .s newGate),
       ("carrier", .s carrier), ("flight_number", .s flightNumber)]⟩]

/-- `_mock_flight_changes`. -/
def mockFlightChanges (b : FlightB) : Option (List Alert) :=
  let carrier := b.carrier.getD ""
  let flightNumber := b.flight_number.getD ""
  let r0 := freshRS (ordSum (carrier ++ flightNumber))
  let (num, r1) := pyRandomNum r0
  if act8Num < num then some []
  else mockFlightChangesActive carrier flightNumber
    (b.depart_datetime.getD "2026-06-01T08:00:00") r1

/-- `_mock_price_drop` (float arithmetic idealized over ℚ; the uniform
draw `uniform(0.08, 0.28) = 0.08 + 0.2·random()`). -/
def mockPriceDrop (b : FlightB) (originalPrice : ℚ) : Option (List Alert) :=
  let carrier := b.carrier.getD ""
  let flightNumber := b.flight_number.getD ""
  let r0 := freshRS (ordSum ("pd" ++ carrier ++ flightNumber))
  let (num, r1) := pyRandomNum r0
  if act12Num < num then some []
  else
    let (num2, _) := pyRandomNum r1
    let dropPct : ℚ := qAdd (mkRat 8 100) (qMul (mkRat 20 100) (mkRat num2 9007199254740992))
    let newPrice : ℚ :=
      qDiv (intQ (qRoundHalf (qMul (qMul originalPrice (qSub (natQ 1) dropPct)) (natQ 100)))) (natQ 100)
    let savings : ℚ :=
      qDiv (intQ (qRoundHalf (qMul (qSub originalPrice newPrice) (natQ 100)))) (natQ 100)
    some [⟨"price_drop",
      "Price drop alert: " ++ carrier ++ " " ++ flightNumber ++ " is now $"
        ++ money2 newPrice ++ " (was $" ++ money2 originalPrice ++ ") — "
        ++ "you could save $" ++ money2 savings ++ " if your ticket is refundable.",
      [("carrier", .s carrier), ("flight_number", .s flightNumber),
       ("original_price_usd", .q originalPrice), ("new_price_usd", .q newPrice),
       ("savings_usd", .q savings)]⟩]

/-! ### Scanner and alert deduplication (`monitor_tasks.py`)

The persisted-alert state is the list of `trip_alerts` rows.  Modelled from
the spec for the part outside the sources (`app/database.py`'s session
configuration): a row added earlier in the same cycle is visible to later
duplicate checks (§4.5 "an alert is only inserted if no existing row
matches"); everything else mirrors `_async_scan_confirmed_trips` and
`_alert_already_exists`. -/

structure PAlert where
  trip_id : Nat
  alert_type : String
  message : String
  details : List (String × MVal)
deriving DecidableEq

def alertKey (a : PAlert) : Nat × String × String := (a.trip_id, a.alert_type, a.message)

/-- `_alert_already_exists`: exact match on (trip_id, alert_type, message). -/
def alertAlreadyExists (alerts : List PAlert) (tripId : Nat) (c : Alert) : Bool :=
  alerts.any (fun a => a.trip_id = tripId && a.alert_type = c.alert_type
    && a.message = c.message)

/-- Process one trip's candidate alerts: insert each candidate unless a row
with its key already exists. -/
def insertAlerts (tripId : Nat) (cands : List Alert) (alerts : List PAlert) :
    List PAlert :=
  match cands with
  | [] => alerts
  | c :: rest =>
    if alertAlreadyExists alerts tripId c then insertAlerts tripId rest alerts
    else insertAlerts tripId rest (alerts ++ [⟨tripId, c.alert_type, c.message, c.details⟩])

/-- One scan cycle over the per-trip candidate batches. -/
def scanCycle (batches : List (Nat × List Alert)) (alerts : List PAlert) :
    List PAlert :=
  match batches with
  | [] => alerts
  | (tid, cs) :: rest => scanCycle rest (insertAlerts tid cs alerts)

/-- What processing one confirmed trip does in a cycle: either it completes,
yielding the trip's candidate alerts (and whether the best-effort alert
email failed — that failure is caught by the per-trip `try/except`), or an
exception is raised while checking bookings / persisting (`.fail`), with
nothing of that trip committed. -/
inductive TripStep where
  | ok (cands : List Alert) (emailFails : Bool)
  | fail

structure ScanState where
  alerts : List PAlert
  scanned : List Nat
deriving DecidableEq

/-- The `for trip in confirmed_trips` loop of `_async_scan_confirmed_trips`:
there is no per-trip exception guard, so a raising trip aborts the loop
(the exception propagates to the caller); an email failure is swallowed. -/
def scanLoop : List (Nat × TripStep) → ScanState → ScanState × Bool
  | [], st => (st, false)
  | (tid, .ok cands _emailFails) :: rest, st =>
    scanLoop rest ⟨insertAlerts tid cands st.alerts, st.scanned ++ [tid]⟩
  | (_, .fail) :: _, st => (st, true)

/-- `scan_confirmed_trips`: the Celery task catches any exception of the
async scan at top level and logs it, so the task itself returns normally
with whatever state was committed before the failure. -/
def scanConfirmedTrips (trips : List (Nat × TripStep)) (st : ScanState) : ScanState :=
  (scanLoop trips st).1

/-- Keys are pairwise distinct: the alert-uniqueness invariant. -/
def uniqKeys (alerts : List PAlert) : Prop :=
  alerts.Pairwise (fun a b => alertKey a ≠ alertKey b)

/-- Number of persisted rows with the given key. -/
def countKey (alerts : List PAlert) (tripId : Nat) (c : Alert) : Nat :=
  (alerts.filter (fun a => a.trip_id = tripId && a.alert_type = c.alert_type
    && a.message = c.message)).length

/-! ### Supporting lemmas -/

lemma dGet_map_replace (d : List (String × JVal)) (k k' : String) (v : JVal)
    (h : k' ≠ k) :
    dGet (d.map (fun p => if p.1 = k then (k, v) else p)) k' = dGet d k' := by
  induction d with
  | nil => rfl
  | cons p rest ih =>
    by_cases hp : p.1 = k
    · simp only [List.map, dGet, List.find?, if_pos hp] at *
      have h1 : ((k, v).1 = k') = False := by simp [Ne.symm h]
      have h2 : (p.1 = k') = False := by simp [hp, Ne.symm h]
      simp only [h1, h2, decide_False] at *
      exact ih
    · simp only [List.map, dGet, List.find?, if_neg hp] at *
      by_cases hq : p.1 = k'
      · simp [hq]
      · simp only [hq, decide_False] at *
        exact ih

lemma dGet_append_other (d : List (String × JVal)) (k k' : String) (v : JVal)
    (h : k' ≠ k) :
    dGet (d ++ [(k, v)]) k' = dGet d k' := by
  unfold dGet
  rw [List.find?_append]
  have : List.find? (fun p => decide (p.1 = k')) [(k, v)] = none := by
    simp [List.find?, Ne.symm h]
  cases hf : List.find? (fun p => decide (p.1 = k')) d <;> simp [this, hf]

/-- `{**d, k: v}` leaves every other key's value unchanged. -/
lemma dGet_dSet_ne (d : List (String × JVal)) (k k' : String) (v : JVal)
    (h : k' ≠ k) :
    dGet (dSet d k v) k' = dGet d k' := by
  unfold dSet
  split
  · exact dGet_map_replace d k k' v h
  · exact dGet_append_other d k k' v h

lemma alertAlreadyExists_iff (alerts : List PAlert) (tid : Nat) (c : Alert) :
    alertAlreadyExists alerts tid c = true ↔ 0 < countKey alerts tid c := by
  unfold alertAlreadyExists countKey
  rw [List.any_eq_true]
  constructor
  · rintro ⟨a, ha, hp⟩
    exact List.length_pos.mpr (List.ne_nil_of_mem (List.mem_filter.mpr ⟨ha, hp⟩))
  · intro h
    rcases List.exists_mem_of_length_pos h with ⟨a, ha⟩
    rcases List.mem_filter.mp ha with ⟨ha1, ha2⟩
    exact ⟨a, ha1, ha2⟩

lemma countKey_append (l1 l2 : List PAlert) (tid : Nat) (c : Alert) :
    countKey (l1 ++ l2) tid c = countKey l1 tid c + countKey l2 tid c := by
  unfold countKey
  rw [List.filter_append, List.length_append]

lemma countKey_singleton_self (tid : Nat) (c : Alert) (d : List (String × MVal)) :
    countKey [⟨tid, c.alert_type, c.message, d⟩] tid c = 1 := by
  unfold countKey
  simp [List.filter]

lemma uniqKeys_insertAlerts (tid : Nat) :
    ∀ (cands : List Alert) (alerts : List PAlert),
      uniqKeys alerts → uniqKeys (insertAlerts tid cands alerts) := by
  intro cands
  induction cands with
  | nil => intro alerts h; exact h
  | cons c rest ih =>
    intro alerts h
    unfold insertAlerts
    split
    · exact ih alerts h
    · rename_i hex
      apply ih
      unfold uniqKeys at h ⊢
      rw [List.pairwise_append]
      refine ⟨h, List.pairwise_singleton _ _, ?_⟩
      intro a ha b hb hkey
      rw [List.mem_singleton.mp hb] at hkey
      have : alertAlreadyExists alerts tid c = true := by
        unfold alertAlreadyExists
        rw [List.any_eq_true]
        refine ⟨a, ha, ?_⟩
        simp only [alertKey, Prod.mk.injEq] at hkey
        simp [hkey.1, hkey.2.1, hkey.2.2]
      rw [this] at hex
      exact hex rfl

lemma uniqKeys_scanCycle :
    ∀ (batches : List (Nat × List Alert)) (alerts : List PAlert),
      uniqKeys alerts → uniqKeys (scanCycle batches alerts) := by
  intro batches
  induction batches with
  | nil => intro alerts h; exact h
  | cons b rest ih =>
    intro alerts h
    rcases b with ⟨tid, cs⟩
    unfold scanCycle
    exact ih _ (uniqKeys_insertAlerts tid cs alerts h)

/-! ### Claim theorems -/

/-- C1: the spec claims `apply_modification` never raises for a domain-level
failure (no matching booking, unparseable dates, invalid resulting duration,
already-at-target, unsupported live operation, unknown intent) and returns
them as `success=false` results.  The code, however, computes
`check_out - timedelta(days=nights)` before the duration check and only
catches `ValueError`: a request whose night count pushes the date outside
`date.min..date.max` raises an uncaught `OverflowError` (here: `none`)
instead of returning a `success=false` result — with a confirmed hotel
booking checked in 2026-06-01 / out 2026-06-05, the request
"shorten my hotel by 1000000 nights" makes `apply_modification` raise. -/
theorem claim_C1_overflow_raises :
    applyModification true
      [⟨"hotel", "confirmed",
        [("hotel", JVal.jobj [("check_in", JVal.jstr "2026-06-01"),
                              ("check_out", JVal.jstr "2026-06-05")])]⟩]
      "shorten my hotel by 1000000 nights".data = none := by
  rfl

lemma mockFlightChangesActive_shape (c f t : String) (r : RS) :
    ∀ l, mockFlightChangesActive c f t r = some l →
      ∃ a, l = [a] ∧ a.alert_type = "schedule_change" := by
  intro l h
  unfold mockFlightChangesActive at h
  dsimp only at h
  split at h
  · exact absurd h (by simp)
  · split at h
    · exact absurd h (by simp)
    · split at h
      · exact absurd h (by simp)
      · split at h
        · injection h with h
          exact ⟨_, h.symm, rfl⟩
        · split at h
          · split at h
            · exact absurd h (by simp)
            · split at h
              · exact absurd h (by simp)
              · injection h with h
                exact ⟨_, h.symm, rfl⟩
          · split at h
            · exact absurd h (by simp)
            · injection h with h
              exact ⟨_, h.symm, rfl⟩

lemma mockFlightChangesActive_ne_nil (c f t : String) (r : RS) :
    mockFlightChangesActive c f t r ≠ some [] := by
  intro h
  rcases mockFlightChangesActive_shape c f t r [] h with ⟨a, ha, _⟩
  exact absurd ha (by simp)

set_option maxRecDepth 4000 in
/-- C2 counterexample: the spec says the mock flight-change result is
derived purely from the flight identity (carrier + flight_number).  Two
bookings for AA AA1 that differ only in depart_datetime yield different
results: the seed (309) activates the departure_time subtype, whose
message embeds the shifted departure time — "(now 07:45)" versus
"(now 08:45)". -/
theorem claim_C2_depart_time_counterexample :
    ({ carrier := some "AA", flight_number := some "AA1", depart_datetime := some "2026-06-01T08:00:00" } : FlightB).carrier
      = ({ carrier := some "AA", flight_number := some "AA1", depart_datetime := some "2026-06-01T09:00:00" } : FlightB).carrier ∧
    ({ carrier := some "AA", flight_number := some "AA1", depart_datetime := some "2026-06-01T08:00:00" } : FlightB).flight_number
      = ({ carrier := some "AA", flight_number := some "AA1", depart_datetime := some "2026-06-01T09:00:00" } : FlightB).flight_number ∧
    mockFlightChanges { carrier := some "AA", flight_number := some "AA1", depart_datetime := some "2026-06-01T08:00:00" }
      ≠ mockFlightChanges { carrier := some "AA", flight_number := some "AA1", depart_datetime := some "2026-06-01T09:00:00" } := by
  refine ⟨rfl, rfl, ?_⟩
  decide

/-- C2 (amended): for two flight bookings with the same carrier and
flight_number, the mock change detector makes the same activation
decision (the no-alert outcome `some []` happens for one iff it happens
for the other — the seed is the character-code sum of carrier +
flight_number), every alert either produces carries alert_type
"schedule_change", and mock price-drop detection with the same original
price returns identical results (it reads nothing but carrier,
flight_number and the price). -/
theorem claim_C2_seed_determinism (b1 b2 : FlightB) (p : ℚ)
    (hc : b1.carrier = b2.carrier) (hf : b1.flight_number = b2.flight_number) :
    (mockFlightChanges b1 = some [] ↔ mockFlightChanges b2 = some []) ∧
    (∀ l a, mockFlightChanges b1 = some l → a ∈ l → a.alert_type = "schedule_change") ∧
    mockPriceDrop b1 p = mockPriceDrop b2 p := by
  refine ⟨?_, ?_, ?_⟩
  · unfold mockFlightChanges
    rw [hc, hf]
    dsimp only
    rcases hnum : pyRandomNum (freshRS (ordSum (b2.carrier.getD "" ++ b2.flight_number.getD "")))
      with ⟨num, r1⟩
    dsimp only
    by_cases hact : act8Num < num
    · rw [if_pos hact, if_pos hact]
    · rw [if_neg hact, if_neg hact]
      constructor
      · intro h
        exact absurd h (mockFlightChangesActive_ne_nil _ _ _ _)
      · intro h
        exact absurd h (mockFlightChangesActive_ne_nil _ _ _ _)
  · intro l a hl ha
    unfold mockFlightChanges at hl
    dsimp only at hl
    revert hl
    rcases hnum : pyRandomNum (freshRS (ordSum (b1.carrier.getD "" ++ b1.flight_number.getD "")))
      with ⟨num, r1⟩
    dsimp only
    intro hl
    by_cases hact : act8Num < num
    · rw [if_pos hact] at hl
      injection hl with hl
      rw [← hl] at ha
      exact absurd ha (by simp)
    · rw [if_neg hact] at hl
      rcases mockFlightChangesActive_shape _ _ _ _ _ hl with ⟨a0, ha0, hty⟩
      rw [ha0, List.mem_singleton] at ha
      rw [ha]
      exact hty
  · unfold mockPriceDrop
    rw [hc, hf]

/-- C2 witness: two UA UA123 bookings with different departure times agree
on activation and price-drop results. -/
theorem claim_C2_seed_determinism_witness :
    (mockFlightChanges { carrier := some "UA", flight_number := some "UA123", depart_datetime := some "2026-06-01T08:00:00" } = some []
      ↔ mockFlightChanges { carrier := some "UA", flight_number := some "UA123", depart_datetime := some "2026-07-02T10:30:00" } = some []) ∧
    (∀ l a, mockFlightChanges { carrier := some "UA", flight_number := some "UA123", depart_datetime := some "2026-06-01T08:00:00" } = some l
      → a ∈ l → a.alert_type = "schedule_change") ∧
    mockPriceDrop { carrier := some "UA", flight_number := some "UA123", depart_datetime := some "2026-06-01T08:00:00" } (natQ 500)
      = mockPriceDrop { carrier := some "UA", flight_number := some "UA123", depart_datetime := some "2026-07-02T10:30:00" } (natQ 500) :=
  claim_C2_seed_determinism
    { carrier := some "UA", flight_number := some "UA123", depart_datetime := some "2026-06-01T08:00:00" }
    { carrier := some "UA", flight_number := some "UA123", depart_datetime := some "2026-07-02T10:30:00" }
    (natQ 500) rfl rfl

/-- C3: the Scanner pipeline preserves alert-key uniqueness — starting from
any alert table with pairwise-distinct (trip_id, alert_type, message) keys,
any scan cycle (any batches of candidate alerts) again yields pairwise
distinct keys, because `_alert_already_exists` is consulted before every
insert; and submitting the same candidate (trip_id, alert_type, message)
through two cycles yields exactly one persisted row.  Modelled from the
spec's description of the DB session: a row inserted earlier in a cycle is
visible to later duplicate checks. -/
theorem claim_C3_alert_uniqueness (batches : List (Nat × List Alert))
    (alerts : List PAlert) (tid : Nat) (c : Alert)
    (h : uniqKeys alerts) (h0 : countKey alerts tid c = 0) :
    uniqKeys (scanCycle batches alerts) ∧
    countKey (scanCycle [(tid, [c])] (scanCycle [(tid, [c])] alerts)) tid c = 1 := by
  refine ⟨uniqKeys_scanCycle batches alerts h, ?_⟩
  have hrow : countKey (alerts ++ [⟨tid, c.alert_type, c.message, c.details⟩]) tid c = 1 := by
    rw [countKey_append, h0, countKey_singleton_self]
  have hA1 : alertAlreadyExists alerts tid c = false := by
    rcases hb : alertAlreadyExists alerts tid c
    · rfl
    · have := (alertAlreadyExists_iff alerts tid c).mp hb
      omega
  have hc1 : scanCycle [(tid, [c])] alerts
      = alerts ++ [⟨tid, c.alert_type, c.message, c.details⟩] := by
    simp [scanCycle, insertAlerts, hA1]
  have hA2 : alertAlreadyExists (alerts ++ [⟨tid, c.alert_type, c.message, c.details⟩]) tid c
      = true :=
    (alertAlreadyExists_iff _ tid c).mpr (by rw [hrow]; omega)
  have hc2 : scanCycle [(tid, [c])]
      (alerts ++ [⟨tid, c.alert_type, c.message, c.details⟩])
      = alerts ++ [⟨tid, c.alert_type, c.message, c.details⟩] := by
    simp [scanCycle, insertAlerts, hA2]
  rw [hc1, hc2, hrow]

/-- C3 witness: one candidate submitted twice into an empty table. -/
theorem claim_C3_alert_uniqueness_witness :
    uniqKeys (scanCycle [(5, [⟨"price_drop", "Price dropped", []⟩])] []) ∧
    countKey (scanCycle [(5, [⟨"price_drop", "Price dropped", []⟩])]
      (scanCycle [(5, [⟨"price_drop", "Price dropped", []⟩])] [])) 5
      ⟨"price_drop", "Price dropped", []⟩ = 1 :=
  claim_C3_alert_uniqueness [(5, [⟨"price_drop", "Price dropped", []⟩])] [] 5
    ⟨"price_drop", "Price dropped", []⟩ List.Pairwise.nil (by rfl)

/-- C4: the spec claims a failure processing one trip does not abort the
scan of the remaining trips.  The per-trip loop of
`_async_scan_confirmed_trips` has no exception guard (only the alert email
is wrapped in `try/except`), so a trip whose processing raises aborts the
cycle: with trips 1 and 2 confirmed and trip 1's processing raising, trip 2
is never scanned and its candidate alert is never persisted (first
conjunct); by contrast a mere email failure on trip 1 leaves trip 2
scanned (second conjunct, the only isolation the code provides). -/
theorem claim_C4_trip_failure_aborts_scan :
    scanConfirmedTrips
      [(1, TripStep.fail),
       (2, TripStep.ok [⟨"schedule_change", "UA UA100: gate changed to B7", []⟩] false)]
      ⟨[], []⟩ = ⟨[], []⟩ ∧
    scanConfirmedTrips
      [(1, TripStep.ok [] true),
       (2, TripStep.ok [⟨"schedule_change", "UA UA100: gate changed to B7", []⟩] false)]
      ⟨[], []⟩
      = ⟨[⟨2, "schedule_change", "UA UA100: gate changed to B7", []⟩], [1, 2]⟩ := by
  exact ⟨rfl, rfl⟩

lemma pyDateSub_ord (d : Date) (n : Nat) (nco : Date)
    (h : pyDateSub d n = some nco) : toOrd nco + n = toOrd d := by
  unfold pyDateSub at h
  split at h
  · rename_i hlt
    injection h with h
    rw [← h, (toOrd_ofOrd (toOrd d - n) (by omega)).1]
    omega
  · exact absurd h (by simp)

/-- C6 counterexample: the spec says that for a confirmed hotel booking
with parseable dates, a HotelShorten(n) with new check-out strictly after
check-in succeeds.  With mock mode off, `_modify_hotel_shorten` never
succeeds: a perfectly valid 2-night shortening (check-in 2026-06-01,
check-out 2026-06-10) returns the live-failure error result. -/
theorem claim_C6_live_shorten_counterexample :
    modifyHotelShorten false
      [⟨"hotel", "confirmed",
        [("hotel", JVal.jobj [("check_in", JVal.jstr "2026-06-01"),
                              ("check_out", JVal.jstr "2026-06-10")])]⟩] 2
      = some (errResult "Live hotel modification failed. Please contact the hotel directly.",
        [⟨"hotel", "confirmed",
          [("hotel", JVal.jobj [("check_in", JVal.jstr "2026-06-01"),
                                ("check_out", JVal.jstr "2026-06-10")])]⟩]) := by
  rfl

/-- C6 (amended): in mock mode, for a confirmed hotel booking with
parseable check-in/check-out and a HotelShorten(n) whose date subtraction
stays in range, the executor rejects with the InvalidDuration message
exactly when new check-out ≤ check-in (leaving the bookings unchanged),
and otherwise succeeds with the new check-out exactly n days before the
old one. -/
theorem claim_C6_shorten_duration (bookings : List MBooking) (n : Nat)
    (hb : MBooking) (hotel : List (String × JVal)) (coStr ciStr : String)
    (co ci nco : Date)
    (hfb : findBooking bookings "hotel" = some hb)
    (hh : dGetObjD hb.details "hotel" = some hotel)
    (hco : dGetStrD hotel "check_out" "" = some coStr)
    (hci : dGetStrD hotel "check_in" "" = some ciStr)
    (hpco : parseISODate coStr = some co)
    (hpci : parseISODate ciStr = some ci)
    (hsub : pyDateSub co n = some nco) :
    (toOrd nco ≤ toOrd ci →
      modifyHotelShorten true bookings n
        = some (errResult "Cannot shorten the stay — that would result in a zero or negative duration.",
            bookings)) ∧
    (toOrd ci < toOrd nco →
      modifyHotelShorten true bookings n
        = some (⟨true, "hotel_shorten",
            "Hotel check-out moved up by " ++ toString n ++ " night(s) to "
              ++ isoDate nco ++ ".",
            some (mockHotelDateChange hotel "check_out" (isoDate nco))⟩,
          updateFirst bookings "hotel"
            (dSet hb.details "hotel"
              (JVal.jobj (mockHotelDateChange hotel "check_out" (isoDate nco))))) ∧
      toOrd nco + n = toOrd co) := by
  constructor
  · intro hle
    unfold modifyHotelShorten
    rw [hfb]
    dsimp only
    rw [hh]
    dsimp only
    rw [hco]
    dsimp only
    rw [hci]
    dsimp only
    rw [hpco]
    dsimp only
    rw [hpci]
    dsimp only
    rw [hsub]
    dsimp only
    rw [if_pos hle]
  · intro hlt
    refine ⟨?_, pyDateSub_ord co n nco hsub⟩
    unfold modifyHotelShorten
    rw [hfb]
    dsimp only
    rw [hh]
    dsimp only
    rw [hco]
    dsimp only
    rw [hci]
    dsimp only
    rw [hpco]
    dsimp only
    rw [hpci]
    dsimp only
    rw [hsub]
    dsimp only
    rw [if_neg (by omega : ¬ toOrd nco ≤ toOrd ci)]
    rfl

/-- C6 witness: a 9-night stay shortened by 2 nights in mock mode succeeds
with check-out moved from 2026-06-10 to 2026-06-08. -/
theorem claim_C6_shorten_duration_witness :
    (modifyHotelShorten true
      [⟨"hotel", "confirmed",
        [("hotel", JVal.jobj [("check_in", JVal.jstr "2026-06-01"),
                              ("check_out", JVal.jstr "2026-06-10")])]⟩] 2
      = some (⟨true, "hotel_shorten",
          "Hotel check-out moved up by " ++ toString 2 ++ " night(s) to "
            ++ isoDate ⟨2026, 6, 8⟩ ++ ".",
          some (mockHotelDateChange
            [("check_in", JVal.jstr "2026-06-01"), ("check_out", JVal.jstr "2026-06-10")]
            "check_out" (isoDate ⟨2026, 6, 8⟩))⟩,
        updateFirst
          [⟨"hotel", "confirmed",
            [("hotel", JVal.jobj [("check_in", JVal.jstr "2026-06-01"),
                                  ("check_out", JVal.jstr "2026-06-10")])]⟩]
          "hotel"
          (dSet [("hotel", JVal.jobj [("check_in", JVal.jstr "2026-06-01"),
                                      ("check_out", JVal.jstr "2026-06-10")])]
            "hotel"
            (JVal.jobj (mockHotelDateChange
              [("check_in", JVal.jstr "2026-06-01"), ("check_out", JVal.jstr "2026-06-10")]
              "check_out" (isoDate ⟨2026, 6, 8⟩)))))) ∧
    toOrd ⟨2026, 6, 8⟩ + 2 = toOrd ⟨2026, 6, 10⟩ :=
  (claim_C6_shorten_duration
    [⟨"hotel", "confirmed",
      [("hotel", JVal.jobj [("check_in", JVal.jstr "2026-06-01"),
                            ("check_out", JVal.jstr "2026-06-10")])]⟩] 2
    ⟨"hotel", "confirmed",
      [("hotel", JVal.jobj [("check_in", JVal.jstr "2026-06-01"),
                            ("check_out", JVal.jstr "2026-06-10")])]⟩
    [("check_in", JVal.jstr "2026-06-01"), ("check_out", JVal.jstr "2026-06-10")]
    "2026-06-10" "2026-06-01" ⟨2026, 6, 10⟩ ⟨2026, 6, 1⟩ ⟨2026, 6, 8⟩
    (by rfl) (by rfl) (by rfl) (by rfl) (by rfl) (by rfl) (by rfl)).2
    (by decide)

/-- C7: "extend my hotel by two nights" classifies as HotelExtend(2) and
"add 3 more nights" as HotelExtend(3); whenever the extension (resp.
shortening) grammar matches but its quantity word resolves to neither an
int nor a word of the digit-word table, the nights value defaults to 1;
and every HotelExtend/HotelShorten intent produced carries nights > 0. -/
theorem claim_C7_classifier_nights :
    parseModificationRequest "extend my hotel by two nights".data = ParsedMod.hotelExtend 2 ∧
    parseModificationRequest "add 3 more nights".data = ParsedMod.hotelExtend 3 ∧
    (∀ (text w : List Char),
      extendSearch (pyStrip (pyLower text)) = some w → wordToInt w = none →
      parseModificationRequest text = ParsedMod.hotelExtend 1) ∧
    (∀ (text w : List Char),
      extendSearch (pyStrip (pyLower text)) = none →
      shortenSearch (pyStrip (pyLower text)) = some w → wordToInt w = none →
      parseModificationRequest text = ParsedMod.hotelShorten 1) ∧
    (∀ (text : List Char) (n : Nat),
      (parseModificationRequest text = ParsedMod.hotelExtend n ∨
       parseModificationRequest text = ParsedMod.hotelShorten n) → 0 < n) := by
  refine ⟨by rfl, by rfl, ?_, ?_, ?_⟩
  · intro text w he hw
    unfold parseModificationRequest
    dsimp only
    rw [he]
    dsimp only
    rw [hw]
    rfl
  · intro text w he hs hw
    unfold parseModificationRequest
    dsimp only
    rw [he]
    dsimp only
    rw [hs]
    dsimp only
    rw [hw]
    rfl
  · intro text n h
    have horOne : ∀ o : Option Nat, 0 < orOne o := by
      intro o
      rcases o with _ | (_ | m) <;> simp [orOne]
    unfold parseModificationRequest at h
    dsimp only at h
    rcases h with h | h <;>
      rcases hext : extendSearch (pyStrip (pyLower text)) with _ | w <;>
        rw [hext] at h <;> dsimp only at h
    · rcases hsh : shortenSearch (pyStrip (pyLower text)) with _ | w <;>
        rw [hsh] at h <;> dsimp only at h
      · split at h
        · injection h
        · split at h <;> injection h
      · injection h
    · injection h with hn
      rw [← hn]
      exact horOne _
    · rcases hsh : shortenSearch (pyStrip (pyLower text)) with _ | w <;>
        rw [hsh] at h <;> dsimp only at h
      · split at h
        · injection h
        · split at h <;> injection h
      · injection h with hn
        rw [← hn]
        exact horOne _
    · injection h

/-- C5 counterexample: the spec says the rule-based strategy fails with
`ParseError` for text mentioning no known city and never returns a
structure with a null destination.  The code defines no `ParseError` at
all: on "hello" (no known city) `_parse_with_rules` returns a complete
spec dict whose `destination` and `destination_city` are null. -/
theorem claim_C5_no_parse_error_counterexample :
    parseWithRules ⟨2026, 10, 12⟩ "hello".data
      = some ⟨none, none, none, none, none, none, 1, "ECONOMY", none, none⟩ := by
  rfl

/-- C5 (amended): for any text whose lowercase form contains no known city
substring, whenever the rule-based parse completes it returns a spec whose
destination and destination_city are null — it does not fail, and no
`ParseError` exists in the code. -/
theorem claim_C5_null_destination (today : Date) (raw : List Char) (spec : RuleSpec)
    (hc : cityTable.find? (fun p => containsL p.1.data (pyLower raw)) = none)
    (hp : parseWithRules today raw = some spec) :
    spec.destination = none ∧ spec.destination_city = none := by
  unfold parseWithRules at hp
  simp only [Option.bind_eq_bind] at hp
  rw [hc] at hp
  rw [Option.bind_eq_some] at hp
  obtain ⟨dm, _, hp⟩ := hp
  rw [Option.bind_eq_some] at hp
  obtain ⟨dep, _, hp⟩ := hp
  rcases dep with _ | depd
  · dsimp only at hp
    rw [Option.bind_eq_some] at hp
    obtain ⟨rt, _, hp⟩ := hp
    rw [Option.bind_eq_some] at hp
    obtain ⟨bud, _, hp⟩ := hp
    injection hp with hp
    rw [← hp]
    exact ⟨rfl, rfl⟩
  · rcases hdur : rulesDuration (pyLower raw) with _ | dur <;>
      rw [hdur] at hp <;> dsimp only at hp
    · rw [Option.bind_eq_some] at hp
      obtain ⟨rt, _, hp⟩ := hp
      rw [Option.bind_eq_some] at hp
      obtain ⟨bud, _, hp⟩ := hp
      injection hp with hp
      rw [← hp]
      exact ⟨rfl, rfl⟩
    · split at hp
      · rcases hadd : pyDateAdd depd dur with _ | r <;>
          rw [hadd] at hp <;> dsimp only at hp
        · rw [Option.none_bind] at hp
          exact absurd hp (by simp)
        · rw [Option.bind_eq_some] at hp
          obtain ⟨rt, _, hp⟩ := hp
          rw [Option.bind_eq_some] at hp
          obtain ⟨bud, _, hp⟩ := hp
          injection hp with hp
          rw [← hp]
          exact ⟨rfl, rfl⟩
      · rw [Option.bind_eq_some] at hp
        obtain ⟨rt, _, hp⟩ := hp
        rw [Option.bind_eq_some] at hp
        obtain ⟨bud, _, hp⟩ := hp
        injection hp with hp
        rw [← hp]
        exact ⟨rfl, rfl⟩

/-- C5 witness: "hello" mentions no known city; the parse completes with a
null destination. -/
theorem claim_C5_null_destination_witness :
    cityTable.find? (fun p => containsL p.1.data (pyLower "hello".data)) = none ∧
    ((⟨none, none, none, none, none, none, 1, "ECONOMY", none, none⟩ : RuleSpec).destination
        = none ∧
     (⟨none, none, none, none, none, none, 1, "ECONOMY", none, none⟩ : RuleSpec).destination_city
        = none) :=
  ⟨by rfl,
   claim_C5_null_destination ⟨2026, 10, 12⟩ "hello".data
     ⟨none, none, none, none, none, none, 1, "ECONOMY", none, none⟩
     (by rfl) (by rfl)⟩

set_option maxRecDepth 10000 in
/-- C7 witness: unresolvable quantity words ("blorp", "qux") default to 1
night, and HotelExtend(3) from "add 3 more nights" has positive nights. -/
theorem claim_C7_classifier_nights_witness :
    parseModificationRequest "extend my hotel by blorp nights".data = ParsedMod.hotelExtend 1 ∧
    parseModificationRequest "reduce my hotel by qux nights".data = ParsedMod.hotelShorten 1 ∧
    0 < 3 :=
  ⟨claim_C7_classifier_nights.2.2.1 "extend my hotel by blorp nights".data "blorp".data
      (by rfl) (by rfl),
   claim_C7_classifier_nights.2.2.2.1 "reduce my hotel by qux nights".data "qux".data
      (by rfl) (by rfl) (by rfl),
   claim_C7_classifier_nights.2.2.2.2 "add 3 more nights".data 3
      (Or.inl claim_C7_classifier_nights.2.1)⟩

/-- C8: a modification text matched by none of the four pattern categories
classifies as Unknown, and `apply_modification` returns the `success=false`
guidance result (listing the three supported phrasings) without touching
the booking collection. -/
theorem claim_C8_unknown_guidance (text : List Char)
    (he : extendSearch (pyStrip (pyLower text)) = none)
    (hs : shortenSearch (pyStrip (pyLower text)) = none)
    (hseat : mfound seatPat (pyStrip (pyLower text)) = false)
    (hroom : mfound roomPat (pyStrip (pyLower text)) = false) :
    parseModificationRequest text = ParsedMod.unknown ∧
    ∀ (mockMode : Bool) (bookings : List MBooking),
      applyModification mockMode bookings text
        = some (⟨false, "unknown", unknownMessage, none⟩, bookings) := by
  have hp : parseModificationRequest text = ParsedMod.unknown := by
    unfold parseModificationRequest
    dsimp only
    rw [he]
    dsimp only
    rw [hs]
    dsimp only
    rw [hseat, hroom]
    rfl
  refine ⟨hp, ?_⟩
  intro mockMode bookings
  unfold applyModification
  rw [hp]

/-- C8 witness: "what time is it" matches none of the four categories. -/
theorem claim_C8_unknown_guidance_witness :
    parseModificationRequest "what time is it".data = ParsedMod.unknown ∧
    applyModification true [] "what time is it".data
      = some (⟨false, "unknown", unknownMessage, none⟩, []) := by
  have h := claim_C8_unknown_guidance "what time is it".data
    (by rfl) (by rfl) (by rfl) (by rfl)
  exact ⟨h.1, h.2 true []⟩

set_option maxRecDepth 10000 in
/-- C9: for any valid today with year ≤ 9998, the rule-based parse of
"Fly to Tokyo in June for 10 days, budget $3000" yields origin null,
destination "TYO", destination_city "Tokyo", a depart date in June (the
first Friday of the applicable June, hence a Friday), a return date 10
days after departure, budget 3000, one traveler, and ECONOMY cabin. -/
theorem claim_C9_tokyo_june (today : Date) (htoday : today.valid)
    (hy : today.year ≤ 9998) :
    ∃ dep ret : Date,
      parseWithRules today "Fly to Tokyo in June for 10 days, budget $3000".data
        = some ⟨none, some "TYO", some "Tokyo", some dep, some ret, some 3000, 1,
            "ECONOMY", none, none⟩ ∧
      dep.month = 6 ∧ weekday dep = 4 ∧ toOrd ret = toOrd dep + 10 := by
  obtain ⟨hty1, htm1, htm2, htd1, htd2⟩ := htoday
  set Y := if 6 < today.month ∨ (6 = today.month ∧ 15 < today.day)
           then today.year + 1 else today.year with hYdef
  have hY1 : 1 ≤ Y := by rw [hYdef]; split <;> omega
  have hY2 : Y ≤ 9999 := by rw [hYdef]; split <;> omega
  obtain ⟨hdy, hdm, hdd1, hdd7, hdw, hdv⟩ :=
    firstFridayOfMonth_spec Y 6 hY1 (by omega) (by omega)
  have hdbm : daysBeforeMonth Y 6 ≤ 152 := by
    unfold daysBeforeMonth
    cases isLeap Y <;> decide
  have hby : daysBeforeYear Y ≤ 3651694 := by
    unfold daysBeforeYear
    omega
  have hbound : toOrd (firstFridayOfMonth Y 6) + 10 ≤ maxOrd := by
    unfold toOrd maxOrd
    rw [hdy, hdm]
    omega
  have hfindm : monthTable.find?
      (fun p => containsL p.1.data
        (pyLower "Fly to Tokyo in June for 10 days, budget $3000".data))
      = some ("june", 6) := by rfl
  have hmd : rulesMonthDepart today
      (pyLower "Fly to Tokyo in June for 10 days, budget $3000".data)
      = some (some (firstFridayOfMonth Y 6)) := by
    unfold rulesMonthDepart
    rw [hfindm]
    dsimp only
    rw [← hYdef, if_pos ⟨hY1, hY2⟩]
  refine ⟨firstFridayOfMonth Y 6, ofOrd (toOrd (firstFridayOfMonth Y 6) + 10),
    ?_, hdm, hdw, ?_⟩
  · unfold parseWithRules
    simp only [Option.bind_eq_bind]
    rw [hmd, Option.some_bind]
    rw [show rulesDateOverride today
        (pyLower "Fly to Tokyo in June for 10 days, budget $3000".data)
        (some (firstFridayOfMonth Y 6))
        = some (some (firstFridayOfMonth Y 6)) from rfl]
    rw [Option.some_bind]
    rw [show rulesDuration (pyLower "Fly to Tokyo in June for 10 days, budget $3000".data)
        = some 10 from rfl]
    dsimp only
    rw [if_pos (by decide : (10 : Nat) ≠ 0)]
    unfold pyDateAdd
    rw [if_pos hbound]
    dsimp only
    rw [Option.some_bind]
    rw [show rulesBudget (pyLower "Fly to Tokyo in June for 10 days, budget $3000".data)
        = some (some 3000) from rfl]
    rw [Option.some_bind]
    rfl
  · exact (toOrd_ofOrd (toOrd (firstFridayOfMonth Y 6) + 10) (by omega)).1

set_option maxRecDepth 10000 in
/-- C9 witness: with today = 2026-10-12 the parse departs on the first
Friday of June 2027 and returns 10 days later. -/
theorem claim_C9_tokyo_june_witness :
    ∃ dep ret : Date,
      parseWithRules ⟨2026, 10, 12⟩ "Fly to Tokyo in June for 10 days, budget $3000".data
        = some ⟨none, some "TYO", some "Tokyo", some dep, some ret, some 3000, 1,
            "ECONOMY", none, none⟩ ∧
      dep.month = 6 ∧ weekday dep = 4 ∧ toOrd ret = toOrd dep + 10 :=
  claim_C9_tokyo_june ⟨2026, 10, 12⟩ (by decide) (by decide)

/-- C10: in mock mode, a successful HotelExtend or HotelShorten changes
only the "check_out" key of the booking's hotel sub-structure: the result
comes from a confirmed hotel booking `hb` with hotel dict `hotel`, the
updated details are `{**hotel, "check_out": v}` for some string `v`, the
booking list is that one booking with only its details replaced, and every
key other than "check_out" of the hotel dict — and every key other than
"hotel" of the details dict — keeps exactly its previous value. -/
theorem claim_C10_frame (bookings : List MBooking) (req : List Char)
    (res : ModResult) (bk' : List MBooking)
    (happ : applyModification true bookings req = some (res, bk'))
    (hs : res.success = true)
    (ht : res.modification_type = "hotel_extend" ∨ res.modification_type = "hotel_shorten") :
    ∃ (hb : MBooking) (hotel : List (String × JVal)) (v : String),
      findBooking bookings "hotel" = some hb ∧
      dGetObjD hb.details "hotel" = some hotel ∧
      res.updated_details = some (dSet hotel "check_out" (JVal.jstr v)) ∧
      bk' = updateFirst bookings "hotel"
        (dSet hb.details "hotel" (JVal.jobj (dSet hotel "check_out" (JVal.jstr v)))) ∧
      (∀ k, k ≠ "check_out" → dGet (dSet hotel "check_out" (JVal.jstr v)) k = dGet hotel k) ∧
      (∀ k, k ≠ "hotel" →
        dGet (dSet hb.details "hotel" (JVal.jobj (dSet hotel "check_out" (JVal.jstr v)))) k
          = dGet hb.details k) := by
  unfold applyModification at happ
  rcases hparse : parseModificationRequest req with n | n | cab | rt2 | _ <;>
    rw [hparse] at happ <;> dsimp only at happ
  · unfold modifyHotelExtend at happ
    rcases hfind : findBooking bookings "hotel" with _ | hb0 <;>
      rw [hfind] at happ <;> dsimp only at happ
    · injection happ with h
      have hfalse := congrArg (fun p => p.1.success) h
      dsimp only at hfalse
      rw [hs] at hfalse
      simp [errResult] at hfalse
    · rcases hobj : dGetObjD hb0.details "hotel" with _ | hotel0 <;>
        rw [hobj] at happ <;> dsimp only at happ
      · exact absurd happ (by simp)
      · rcases hcos : dGetStrD hotel0 "check_out" "" with _ | coStr0 <;>
          rw [hcos] at happ <;> dsimp only at happ
        · exact absurd happ (by simp)
        · rcases hpco : parseISODate coStr0 with _ | co0 <;>
            rw [hpco] at happ <;> dsimp only at happ
          · injection happ with h
            have hfalse := congrArg (fun p => p.1.success) h
            dsimp only at hfalse
            rw [hs] at hfalse
            simp [errResult] at hfalse
          · rcases hadd : pyDateAdd co0 n with _ | nco0 <;>
              rw [hadd] at happ <;> dsimp only at happ
            · exact absurd happ (by simp)
            · rcases hnum : dGetNumD hotel0 "price_per_night_usd" with _ | ppn0 <;>
                rw [hnum] at happ <;> dsimp only at happ
              · exact absurd happ (by simp)
              · injection happ with h
                have hres := congrArg Prod.fst h
                have hbk := congrArg Prod.snd h
                dsimp only at hres hbk
                refine ⟨hb0, hotel0, isoDate nco0, rfl, hobj, ?_, ?_, ?_, ?_⟩
                · rw [← hres]
                  rfl
                · rw [← hbk]
                  rfl
                · intro k hk
                  exact dGet_dSet_ne _ _ _ _ hk
                · intro k hk
                  exact dGet_dSet_ne _ _ _ _ hk
  · unfold modifyHotelShorten at happ
    rcases hfind : findBooking bookings "hotel" with _ | hb0 <;>
      rw [hfind] at happ <;> dsimp only at happ
    · injection happ with h
      have hfalse := congrArg (fun p => p.1.success) h
      dsimp only at hfalse
      rw [hs] at hfalse
      simp [errResult] at hfalse
    · rcases hobj : dGetObjD hb0.details "hotel" with _ | hotel0 <;>
        rw [hobj] at happ <;> dsimp only at happ
      · exact absurd happ (by simp)
      · rcases hcos : dGetStrD hotel0 "check_out" "" with _ | coStr0 <;>
          rw [hcos] at happ <;> dsimp only at happ
        · exact absurd happ (by simp)
        · rcases hcis : dGetStrD hotel0 "check_in" "" with _ | ciStr0 <;>
            rw [hcis] at happ <;> dsimp only at happ
          · exact absurd happ (by simp)
          · rcases hpco : parseISODate coStr0 with _ | co0 <;>
              rw [hpco] at happ <;> dsimp only at happ
            · injection happ with h
              have hfalse := congrArg (fun p => p.1.success) h
              dsimp only at hfalse
              rw [hs] at hfalse
              simp [errResult] at hfalse
            · rcases hpci : parseISODate ciStr0 with _ | ci0 <;>
                rw [hpci] at happ <;> dsimp only at happ
              · injection happ with h
                have hfalse := congrArg (fun p => p.1.success) h
                dsimp only at hfalse
                rw [hs] at hfalse
                simp [errResult] at hfalse
              · rcases hsub : pyDateSub co0 n with _ | nco0 <;>
                  rw [hsub] at happ <;> dsimp only at happ
                · exact absurd happ (by simp)
                · split at happ
                  · injection happ with h
                    have hfalse := congrArg (fun p => p.1.success) h
                    dsimp only at hfalse
                    rw [hs] at hfalse
                    simp [errResult] at hfalse
                  · injection happ with h
                    have hres := congrArg Prod.fst h
                    have hbk := congrArg Prod.snd h
                    dsimp only at hres hbk
                    refine ⟨hb0, hotel0, isoDate nco0, rfl, hobj, ?_, ?_, ?_, ?_⟩
                    · rw [← hres]
                      rfl
                    · rw [← hbk]
                      rfl
                    · intro k hk
                      exact dGet_dSet_ne _ _ _ _ hk
                    · intro k hk
                      exact dGet_dSet_ne _ _ _ _ hk
  · unfold modifySeatUpgrade at happ
    rcases hfind : findBooking bookings "flight" with _ | fb0 <;>
      rw [hfind] at happ <;> dsimp only at happ
    · injection happ with h
      have hfalse := congrArg (fun p => p.1.success) h
      dsimp only at hfalse
      rw [hs] at hfalse
      simp [errResult] at hfalse
    · rcases hobj : dGetObjD fb0.details "flight" with _ | flight0 <;>
        rw [hobj] at happ <;> dsimp only at happ
      · exact absurd happ (by simp)
      · rcases hcab : dGetStrD flight0 "cabin" "ECONOMY" with _ | cur0 <;>
          rw [hcab] at happ <;> dsimp only at happ
        · exact absurd happ (by simp)
        · split at happ
          · injection happ with h
            have hfalse := congrArg (fun p => p.1.success) h
            dsimp only at hfalse
            rw [hs] at hfalse
            simp [errResult] at hfalse
          · injection happ with h
            have hmt := congrArg (fun p => p.1.modification_type) h
            dsimp only at hmt
            rcases ht with ht | ht <;> rw [ht] at hmt <;> exact absurd hmt (by decide)
  · unfold modifyRoomUpgrade at happ
    rcases hfind : findBooking bookings "hotel" with _ | hb0 <;>
      rw [hfind] at happ <;> dsimp only at happ
    · injection happ with h
      have hfalse := congrArg (fun p => p.1.success) h
      dsimp only at hfalse
      rw [hs] at hfalse
      simp [errResult] at hfalse
    · rcases hobj : dGetObjD hb0.details "hotel" with _ | hotel0 <;>
        rw [hobj] at happ <;> dsimp only at happ
      · exact absurd happ (by simp)
      · rcases hcos : dGetStrD hotel0 "check_out" "" with _ | coS0 <;>
          rw [hcos] at happ <;> dsimp only at happ
        · exact absurd happ (by simp)
        · rcases hcis : dGetStrD hotel0 "check_in" "" with _ | ciS0 <;>
            rw [hcis] at happ <;> dsimp only at happ
          · exact absurd happ (by simp)
          · injection happ with h
            have hmt := congrArg (fun p => p.1.modification_type) h
            dsimp only at hmt
            rcases ht with ht | ht <;> rw [ht] at hmt <;> exact absurd hmt (by decide)
  · injection happ with h
    have hfalse := congrArg (fun p => p.1.success) h
    dsimp only at hfalse
    rw [hs] at hfalse
    simp at hfalse

/-- C10 witness: a 2-night extension of a confirmed hotel booking
(check-in 2026-06-01, check-out 2026-06-10) succeeds and only changes
"check_out". -/
theorem claim_C10_frame_witness :
    ∃ (hb : MBooking) (hotel : List (String × JVal)) (v : String),
      findBooking
        [⟨"hotel", "confirmed",
          [("hotel", JVal.jobj [("check_in", JVal.jstr "2026-06-01"),
                                ("check_out", JVal.jstr "2026-06-10")])]⟩] "hotel"
        = some hb ∧
      dGetObjD hb.details "hotel" = some hotel ∧
      (⟨true, "hotel_extend",
        "Hotel check-out extended by 2 night(s) to 2026-06-12.",
        some [("check_in", JVal.jstr "2026-06-01"), ("check_out", JVal.jstr "2026-06-12")]⟩
        : ModResult).updated_details
        = some (dSet hotel "check_out" (JVal.jstr v)) ∧
      [(⟨"hotel", "confirmed",
          [("hotel", JVal.jobj [("check_in", JVal.jstr "2026-06-01"),
                                ("check_out", JVal.jstr "2026-06-12")])]⟩ : MBooking)]
        = updateFirst
            [⟨"hotel", "confirmed",
              [("hotel", JVal.jobj [("check_in", JVal.jstr "2026-06-01"),
                                    ("check_out", JVal.jstr "2026-06-10")])]⟩] "hotel"
            (dSet hb.details "hotel" (JVal.jobj (dSet hotel "check_out" (JVal.jstr v)))) ∧
      (∀ k, k ≠ "check_out" → dGet (dSet hotel "check_out" (JVal.jstr v)) k = dGet hotel k) ∧
      (∀ k, k ≠ "hotel" →
        dGet (dSet hb.details "hotel" (JVal.jobj (dSet hotel "check_out" (JVal.jstr v)))) k
          = dGet hb.details k) :=
  claim_C10_frame
    [⟨"hotel", "confirmed",
      [("hotel", JVal.jobj [("check_in", JVal.jstr "2026-06-01"),
                            ("check_out", JVal.jstr "2026-06-10")])]⟩]
    "extend my hotel by 2 nights".data
    ⟨true, "hotel_extend",
      "Hotel check-out extended by 2 night(s) to 2026-06-12.",
      some [("check_in", JVal.jstr "2026-06-01"), ("check_out", JVal.jstr "2026-06-12")]⟩
    [⟨"hotel", "confirmed",
      [("hotel", JVal.jobj [("check_in", JVal.jstr "2026-06-01"),
                            ("check_out", JVal.jstr "2026-06-12")])]⟩]
    (by rfl) (by rfl) (Or.inl (by rfl))

end PFA
